import Mathlib

/-!
Shallow embedding of the news-scoring core of the morning-scanner repository
(`src/nlp/keywords.py`, `src/nlp/advanced_analysis.py`, `src/nlp/classify.py`).

Conventions of the embedding:
* Python strings are modelled as `List Char` (`Str`); a position in a string is
  the index of a character, exactly as in CPython.
* Python floats are modelled as exact rationals `ℚ`; every numeric literal of
  the source (`0.5`, `0.3`, ...) is read as the corresponding rational.
* `str.lower` is modelled for the alphabet actually used by the vocabularies
  (ASCII plus the Swedish letters Å, Ä, Ö and É); `str.strip` is modelled for
  the common whitespace characters.
* Fallible Python operations are typed in `Except String`; a function that the
  source wraps in `try/except` is split into a `..._body` in `Except` plus the
  handler.  A Python method call with a wrong arity (a `TypeError` raised
  before the callee runs) is modelled as `Except.error`.
* A Python dict with a statically known key set is modelled as a structure;
  a key that is present only on some code paths becomes an `Option` field
  (`none` = the key is absent from the returned dict).
-/

set_option maxRecDepth 100000

abbrev Str := List Char

/-- Python `str.lower`, restricted to ASCII and the uppercase non-ASCII
letters that occur in the vocabularies of the source. -/
def pyLowerChar (c : Char) : Char :=
  if c = 'Å' then 'å'
  else if c = 'Ä' then 'ä'
  else if c = 'Ö' then 'ö'
  else if c = 'É' then 'é'
  else if c = 'Ü' then 'ü'
  else c.toLower

def pyLower (s : Str) : Str := s.map pyLowerChar

/-- Whitespace as stripped by Python `str.strip()` (common characters). -/
def isPySpace (c : Char) : Bool :=
  c = ' ' || c = '\t' || c = '\n' || c = '\x0d'

def pyStripLeft (s : Str) : Str := s.dropWhile isPySpace

def pyStripRight (s : Str) : Str := (s.reverse.dropWhile isPySpace).reverse

/-- Python `str.strip()`. -/
def pyStrip (s : Str) : Str := pyStripRight (pyStripLeft s)

/-- All positions at which `pat` occurs in `text`, in increasing order.
This is what the `text.find(pat, start)` / `start = pos + 1` loop of
`_find_keywords` enumerates for a non-empty `pat`. -/
def findOccurrences (text pat : Str) : List Nat :=
  (List.range text.length).filter fun i => pat.isPrefixOf (text.drop i)

/-- Python `pat in text` (substring containment; the empty pattern is
contained in every text). -/
def containsSub (text pat : Str) : Bool :=
  (List.range (text.length + 1)).any fun i => pat.isPrefixOf (text.drop i)

/-- Python `min(a, b)` on floats, as the source writes `min(1.0, score)`. -/
def pyMin (a b : ℚ) : ℚ := if a ≤ b then a else b

/-- Python `max(a, b)` on floats, as the source writes `max(0.0, ...)`. -/
def pyMax (a b : ℚ) : ℚ := if a ≤ b then b else a

/-- `KeywordMatch` dataclass of `src/nlp/keywords.py`. -/
structure KeywordMatch where
  keyword : Str
  category : Str
  position : Nat
  context : Str
  score : ℚ
deriving DecidableEq

namespace SwedishFinancialKeywords
def POSITIVE_KEYWORDS : List Str := ([
  "resultatlyft", "vinstlyft", "marginallyft", "stark rapport", "överträffar förväntningarna",
  "bättre än väntat", "bättre än prognos", "höjer prognos", "höjer guidning", "guidning över väntan",
  "höjer utsikter", "starkare utsikter", "stark orderingång", "rekordorderingång", "rekordorder",
  "stororder", "miljardorder", "betydande order", "flerårigt avtal", "ramavtal",
  "förlängt avtal", "ny kund", "stor kund", "strategiskt avtal", "strategiskt partnerskap",
  "samarbete", "joint venture", "exklusivt avtal", "licensavtal", "distributionsavtal",
  "lanserar", "produktlansering", "marknadslansering", "kommersialisering", "kommersiellt genombrott",
  "genombrottsorder", "regulatoriskt godkännande", "godkännande", "godkänd", "CE-märkning",
  "CE-märke", "FDA-godkännande", "marknadsgodkännande", "patent beviljat", "patentportfölj stärks",
  "indexinträde", "tas in i index", "inkluderas i index", "återinförs i index", "IPO klar",
  "noteras på First North", "notering godkänd", "uppgraderas", "uppgradering", "höjd rekommendation",
  "höjd riktkurs", "köpråd", "stark köprekommendation", "höjer riktkurs", "övervikt",
  "outperform", "överträffar guidning", "överträffar estimat", "höjer utdelning", "extrautdelning",
  "återköp", "aktieåterköp", "omvänd vinstvarning", "preliminärt över förväntan", "stark inledning av året",
  "stark avslutning", "växer snabbare än marknaden", "stark organisk tillväxt", "rekordförsäljning", "rekordomsättning",
  "rekordvinst", "vänder till vinst", "tillbaka till vinst", "lönsamhet förbättras", "bruttomarginal upp",
  "rörelsemarginal upp", "kassaflöde förbättras", "skuldsättning minskar", "soliditet förbättras", "mål uppnås i förtid",
  "överträffar finansiella mål", "höjer finansiella mål", "upprepar stark guidning", "ny marknad", "expansion",
  "etablerar sig i", "vinner upphandling", "viktig upphandling", "upphandlingsseger", "stor leverans",
  "uppskalning", "kapacitet utökas", "produktionsökning", "investering i kapacitet", "fabrik byggs",
  "orderbok växer", "stark efterfrågan", "övertecknad emission", "insiderköp", "vd köper aktier",
  "ledning ökar innehav", "storägares köp", "ankarinvesterare", "positivt besked", "positiv nyhet",
  "positiv kursreaktion", "stark öppning väntas", "stark morgon", "uppåt på börsen", "starkt sentiment",
  "riskaptit ökar", "stark sektorutveckling", "vinner marknadsandelar", "lyckad pilot", "lyckat test",
  "valideringsdata positiva", "klinisk framgång", "fas 2 lyckas", "fas 3 lyckas", "myndighetsgodkännande",
  "intäktsdelning", "royaltyintäkter", "exklusivitetsperiod", "prisjustering upp", "prishöjning",
  "stark orderpipeline", "backlog växer", "lönsam tillväxt", "höjer långsiktiga mål", "delägare",
  "bekräftat"
  ] : List String).map String.data

def CATALYST_KEYWORDS : List Str := ([
  "bevakningsstart", "bevakning inledd", "initierar bevakning", "höjd bevakning", "konferenscall",
  "kapitalmarknadsdag", "CMD", "kapitalmarknadsuppdatering", "produktuppdatering", "uppdaterar marknaden",
  "trading update", "månadsrapport", "försäljningssiffror", "trafiksiffror", "kundtillväxt",
  "abonnenttillväxt", "bokslut", "delårsrapport", "Q1", "Q2",
  "Q3", "Q4", "preliminär rapport", "årsredovisning", "guidance upprepas",
  "outlook upprepas", "affärsuppgörelse", "LOI", "letter of intent", "MOU",
  "avsiktsförklaring", "strategisk översyn", "avknoppning", "spin-off", "särnotering",
  "listbyte", "flytt till huvudlista", "stigande ägarandel", "ny styrelseledamot", "ny vd",
  "ny CFO", "ägarförändring", "flaggning", "flaggar upp", "flaggar över tröskel",
  "ökat institutionsintresse", "täcker emissionsbehov", "säkrar finansiering", "grönt ljus", "tilldelning klar",
  "lyckad book-building", "positiva förhandsbokningar", "förhandsintresse starkt", "exportorder", "marknadspenetration",
  "återstart", "produktionsstart", "produktionsåterupptag", "leveranser återupptas", "legala hinder undanröjda",
  "tvist löst", "skiljedom positiv", "skattefråga löst", "godkänd ansökan", "tillstånd beviljat",
  "miljötillstånd klart", "nätverksavtal", "operatörsavtal", "återförsäljarnät växer", "certifiering klar",
  "kvalitetsmärkning", "pilotkund", "referenskund", "lyckad POC", "proof of concept",
  "förbättrad visibilitet", "orderingång framåtblick", "pipeline indikatorer", "sektorn i fokus", "tematisk medvind"
  ] : List String).map String.data

def NEGATIVE_KEYWORDS : List Str := ([
  "vinstvarning", "sänker prognos", "sänker guidning", "prognos under väntan", "lägre än väntat",
  "svag rapport", "missar förväntningarna", "svag orderingång", "ordertapp", "förlorar upphandling",
  "tappar kund", "avslutar avtal", "samarbetet avslutas", "försenad lansering", "försening",
  "leveransproblem", "produktionsstopp", "produktionsproblem", "flaskhalsar", "kapacitetsbrist",
  "komponentbrist", "kvalitetsproblem", "återkallelse", "återkallar produkt", "regulatorisk försening",
  "regulatoriskt avslag", "avslag", "FDA-brev", "varningsbrev", "CE-problem",
  "säkerhetsbrister", "data otillräckliga", "studie misslyckas", "negativt utfall", "negativ studie",
  "utredning", "granskning", "tillsyn", "myndighetsprövning", "rättsprocess",
  "stämning", "dom mot bolaget", "sanktionsrisk", "cyberattack", "dataintrång",
  "bedrägeriutredning", "negativ press", "miljöböter", "tvist", "leverantörsproblem",
  "kundförlust", "prispress", "marginalpress", "bruttomarginal ner", "rörelsemarginal ner",
  "lönsamhet försämras", "kassaflöde försvagas", "skuldsättning ökar", "covenant-risk", "refinansieringsrisk",
  "kreditfacilitet sägs upp", "räntenetto pressas", "svag efterfrågan", "lagerökning", "försäljningsnedgång",
  "avyttrar till reapris", "nedskrivning", "impairment", "goodwillnedskrivning", "varulagernedskrivning",
  "VD avgår", "CFO avgår", "ledningsavhopp", "styrelsekris", "ägarkonflikt",
  "negativt besked", "negativ kursreaktion", "sänkt rekommendation", "sänkt riktkurs", "säljråd",
  "undervikt", "underperform", "handelsstopp", "handelsstoppas", "observationslista",
  "granskning av börsen", "företrädesemission", "nyemission", "riktad emission", "utspädning",
  "konvertibler", "teckningsoptioner", "likviditetsbrist", "going concern-varning", "konkursansökan",
  "företagsrekonstruktion", "rekonstruktion", "kontrollbalansräkning", "förlorar indexplats", "lämnar index"
  ] : List String).map String.data
/-- `SwedishFinancialKeywords._calculate_keyword_score`. -/
def _calculate_keyword_score (keyword : Str) (position : Nat) (text_length : Nat) : ℚ :=
  let score : ℚ := 0.5
  let score : ℚ :=
    if (position : ℚ) < (text_length : ℚ) * 0.1 then score + 0.3
    else if (position : ℚ) < (text_length : ℚ) * 0.3 then score + 0.2
    else score
  let score : ℚ :=
    if keyword.length > 20 then score + 0.2
    else if keyword.length > 10 then score + 0.1
    else score
  let score : ℚ := if keyword ∈ CATALYST_KEYWORDS then score + 0.1 else score
  pyMin 1 score

/-- `SwedishFinancialKeywords._find_keywords`: `text` is the already
lower-cased text; for each keyword every occurrence of its lower-cased form
is turned into a `KeywordMatch`. -/
def _find_keywords (text : Str) (keywords : List Str) (category : Str) :
    List KeywordMatch :=
  keywords.flatMap fun keyword =>
    (findOccurrences text (pyLower keyword)).map fun pos =>
      let context_start := pos - 50
      let context_end := Nat.min text.length (pos + keyword.length + 50)
      { keyword := keyword
        category := category
        position := pos
        context := (text.take context_end).drop context_start
        score := _calculate_keyword_score keyword pos text.length }

/-- Result type of `extract_keywords` (a dict with the three fixed keys). -/
structure ExtractedKeywords where
  positive : List KeywordMatch
  negative : List KeywordMatch
  catalyst : List KeywordMatch
deriving DecidableEq

/-- `SwedishFinancialKeywords.extract_keywords`. -/
def extract_keywords (text : Str) : ExtractedKeywords :=
  if text.isEmpty then ⟨[], [], []⟩
  else
    let text_lower := pyLower text
    { positive := _find_keywords text_lower POSITIVE_KEYWORDS "positive".data
      negative := _find_keywords text_lower NEGATIVE_KEYWORDS "negative".data
      catalyst := _find_keywords text_lower CATALYST_KEYWORDS "catalyst".data }

/-- The concatenated text `f"{title} {content} {snippet}".strip()` used by
`extract_positive_keywords` and friends. -/
def full_text (title content snippet : Str) : Str :=
  pyStrip (title ++ [' '] ++ content ++ [' '] ++ snippet)

/-- `SwedishFinancialKeywords.extract_positive_keywords`. -/
def extract_positive_keywords (title content snippet : Str) : List KeywordMatch :=
  (extract_keywords (full_text title content snippet)).positive

/-- `SwedishFinancialKeywords.extract_negative_keywords`. -/
def extract_negative_keywords (title content snippet : Str) : List KeywordMatch :=
  (extract_keywords (full_text title content snippet)).negative

/-- `SwedishFinancialKeywords.extract_catalyst_keywords`. -/
def extract_catalyst_keywords (title content snippet : Str) : List KeywordMatch :=
  (extract_keywords (full_text title content snippet)).catalyst

/-- `SwedishFinancialKeywords.calculate_sentiment_score` (the real
two-argument method). -/
def calculate_sentiment_score (positive_keywords negative_keywords : List KeywordMatch) : ℚ :=
  (positive_keywords.map (·.score)).sum - (negative_keywords.map (·.score)).sum

/-- `SwedishFinancialKeywords.calculate_relevance_score`. -/
def calculate_relevance_score (positive_keywords negative_keywords catalyst_keywords :
    List KeywordMatch) : ℚ :=
  let total_keywords :=
    positive_keywords.length + negative_keywords.length + catalyst_keywords.length
  let total_score :=
    (positive_keywords.map (·.score)).sum + (negative_keywords.map (·.score)).sum +
      (catalyst_keywords.map (·.score)).sum
  if total_keywords = 0 then 0
  else
    let avg_strength := total_score / (total_keywords : ℚ)
    let quantity_bonus := min 0.3 ((total_keywords : ℚ) * 0.05)
    let catalyst_bonus := min 0.2 ((catalyst_keywords.length : ℚ) * 0.1)
    pyMin 1 (avg_strength + quantity_bonus + catalyst_bonus)

/-- One step of the `if`/`elif` chain of `classify_categories`: the category
added for one matched keyword (if any). -/
def categoryOf (keyword_lower : Str) : List Str :=
  if ["resultat", "vinst", "förlust", "rapport", "bokslut"].any
      (fun w => containsSub keyword_lower w.data) then ["earnings".data]
  else if ["order", "kontrakt", "avtal", "leverans"].any
      (fun w => containsSub keyword_lower w.data) then ["orders".data]
  else if ["prognos", "guidning", "utskter", "mål"].any
      (fun w => containsSub keyword_lower w.data) then ["guidance".data]
  else if ["godkännande", "regulatorisk", "tillstånd"].any
      (fun w => containsSub keyword_lower w.data) then ["regulatory".data]
  else if ["börs", "handel", "kurs", "index"].any
      (fun w => containsSub keyword_lower w.data) then ["market".data]
  else if ["emission", "finansiering", "lån", "kredit"].any
      (fun w => containsSub keyword_lower w.data) then ["financial".data]
  else if ["sektor", "bransch", "trend"].any
      (fun w => containsSub keyword_lower w.data) then ["industry".data]
  else []

/-- `SwedishFinancialKeywords.classify_categories`.  The source accumulates
into a Python `set` and returns `list(categories)`; the iteration order of a
`set` is unspecified, so the embedding fixes first-insertion order. -/
def classify_categories (positive_keywords catalyst_keywords : List KeywordMatch) :
    List Str :=
  ((positive_keywords ++ catalyst_keywords).flatMap
    (fun m => categoryOf (pyLower m.keyword))).eraseDups

/-- `SwedishFinancialKeywords._get_sentiment_label`. -/
def _get_sentiment_label (score : ℚ) : Str :=
  if score ≥ 0.5 then "Very Positive".data
  else if score ≥ 0.1 then "Positive".data
  else if score ≤ -0.5 then "Very Negative".data
  else if score ≤ -0.1 then "Negative".data
  else "Neutral".data

/-- `SwedishFinancialKeywords.is_high_impact_news`.  The source calls
`self.calculate_sentiment_score(text)` with a single argument, but that
method requires two positional arguments, so every call raises `TypeError`. -/
def is_high_impact_news (text : Str) : Except String Bool :=
  let _keywords := extract_keywords text
  Except.error
    "TypeError: calculate_sentiment_score() missing 1 required positional argument"

/-- Value type of the dict built by `get_keyword_summary` (never actually
returned, see `get_keyword_summary`). -/
structure KeywordSummary where
  counts_positive : Nat
  counts_negative : Nat
  counts_catalyst : Nat
  counts_total : Nat
  sentiment_score : ℚ
  sentiment_label : Str
  top_positive : List (Str × ℚ)
  top_negative : List (Str × ℚ)
  top_catalyst : List (Str × ℚ)
  has_catalyst : Bool
  overall_tone : Str

/-- Stable descending sort by match score, as
`sorted(..., key=lambda x: x.score, reverse=True)`. -/
def sortByScoreDesc (l : List KeywordMatch) : List KeywordMatch :=
  l.mergeSort fun a b => b.score ≤ a.score

/-- `SwedishFinancialKeywords.get_keyword_summary`.  After computing the
counts and the top keywords, the source calls
`self.calculate_sentiment_score(text)` with a single argument; the method
requires two positional arguments, so every call raises `TypeError` before
the summary dict is built. -/
def get_keyword_summary (text : Str) : Except String KeywordSummary :=
  let keywords := extract_keywords text
  let _counts :=
    (keywords.positive.length, keywords.negative.length, keywords.catalyst.length,
      keywords.positive.length + keywords.negative.length + keywords.catalyst.length)
  let _top_positive := (sortByScoreDesc keywords.positive).take 5
  let _top_negative := (sortByScoreDesc keywords.negative).take 5
  let _top_catalyst := (sortByScoreDesc keywords.catalyst).take 5
  Except.error
    "TypeError: calculate_sentiment_score() missing 1 required positional argument"

end SwedishFinancialKeywords

/-- `AdvancedSignal` dataclass of `src/nlp/advanced_analysis.py`. -/
structure AdvancedSignal where
  signal_type : Str
  strength : ℚ
  explanation : Str
  confidence : ℚ
  timeframe : Str
deriving DecidableEq

namespace AdvancedAnalyzer

/-- One quantitative regex of `_setup_patterns`.  Every pattern of the source
has the shape `lit₁.*?(lit₂.*?)(\d+)(.*?tail)?` with one or two leading
literals, a lazily reached digit group, and an optional trailing literal.
The alternation `(miljard|miljarder)` always matches its first branch
`miljard` (a prefix of the second), so it is recorded as the literal
`miljard`. -/
structure QuantPattern where
  lits : List Str
  tail : Option Str
deriving DecidableEq

/-- One entry of the `quantitative_patterns` table. -/
structure QuantMetric where
  metric : Str
  patterns : List QuantPattern
  threshold : ℚ
  weight : ℚ

/-- `self.quantitative_patterns` of `_setup_patterns`. -/
def quantitative_patterns : List QuantMetric := [
  { metric := "revenue_growth".data
    patterns := [
      -- r"intäkter.*?(\d+).*?procent"
      ⟨["intäkter".data], some "procent".data⟩,
      -- r"omsättning.*?ökade.*?(\d+).*?%"
      ⟨["omsättning".data, "ökade".data], some "%".data⟩,
      -- r"försäljning.*?upp.*?(\d+).*?procent"
      ⟨["försäljning".data, "upp".data], some "procent".data⟩,
      -- r"revenue.*?grew.*?(\d+).*?%"
      ⟨["revenue".data, "grew".data], some "%".data⟩]
    threshold := 10
    weight := 0.8 },
  { metric := "margin_improvement".data
    patterns := [
      -- r"marginal.*?förbättrades.*?(\d+)"
      ⟨["marginal".data, "förbättrades".data], none⟩,
      -- r"lönsamhet.*?ökade.*?(\d+)"
      ⟨["lönsamhet".data, "ökade".data], none⟩,
      -- r"margin.*?improved.*?(\d+)"
      ⟨["margin".data, "improved".data], none⟩]
    threshold := 2
    weight := 0.7 },
  { metric := "large_contracts".data
    patterns := [
      -- r"kontrakt.*?värt.*?(\d+).*?(miljard|miljarder)"
      ⟨["kontrakt".data, "värt".data], some "miljard".data⟩,
      -- r"order.*?(\d+).*?(miljard|miljarder)"
      ⟨["order".data], some "miljard".data⟩,
      -- r"avtal.*?(\d+).*?(miljard|miljarder)"
      ⟨["avtal".data], some "miljard".data⟩]
    threshold := 1
    weight := 0.9 },
  { metric := "market_share".data
    patterns := [
      -- r"marknadsandel.*?(\d+).*?procent"
      ⟨["marknadsandel".data], some "procent".data⟩,
      -- r"market.*?share.*?(\d+).*?%"
      ⟨["market".data, "share".data], some "%".data⟩]
    threshold := 25
    weight := 0.6 }]

/-- First occurrence of `pat` in `text` at an index `≥ i`
(Python `text.find(pat, i)` for a non-empty `pat`). -/
def findFrom (text pat : Str) (i : Nat) : Option Nat :=
  (findOccurrences text pat).find? (fun p => decide (i ≤ p))

/-- First index `≥ i` holding an ASCII digit (`\d` of the patterns). -/
def findDigitFrom (text : Str) (i : Nat) : Option Nat :=
  (List.range text.length).find? fun j =>
    decide (i ≤ j) && (match text.get? j with
      | some c => c.isDigit
      | none => false)

/-- End of the maximal digit run starting at `d` (greedy `\d+`). -/
def digitRunEnd (text : Str) (d : Nat) : Nat :=
  d + ((text.drop d).takeWhile (fun c => c.isDigit)).length

/-- Numeric value of a digit string (`float(match.group(1))`, which is exact
for the integers captured by `\d+`). -/
def digitsVal (s : Str) : Nat :=
  s.foldl (fun n c => n * 10 + (c.toNat - 48)) 0

/-- Consume the remaining leading literals of a pattern: each is resolved to
its first occurrence at or after the current position, exactly where a lazy
`.*?` gap places it. -/
def chaseLits (text : Str) : List Str → Nat → Option Nat
  | [], pos => some pos
  | l :: ls, pos =>
    match findFrom text l pos with
    | none => none
    | some p => chaseLits text ls (p + l.length)

/-- Find the digit group and, when present, the trailing literal.  The lazy
gap before `(\d+)` tries the earliest digit run first; if the trailing
literal does not occur after that run the engine backtracks to the next run
(the literal cannot start inside a digit run since it starts with a
non-digit).  Returns the captured value and the end of the whole match.
`fuel` only bounds the strictly position-increasing search. -/
def findNumber (text : Str) (tail : Option Str) : Nat → Nat → Option (Nat × Nat)
  | 0, _ => none
  | fuel + 1, pos =>
    match findDigitFrom text pos with
    | none => none
    | some d =>
      let e := digitRunEnd text d
      let v := digitsVal ((text.take e).drop d)
      match tail with
      | none => some (v, e)
      | some t =>
        match findFrom text t e with
        | some f => some (v, f + t.length)
        | none => findNumber text tail fuel e

/-- One `re.finditer` step from scan position `s`: the leftmost match starts
at the first occurrence of the first literal; if the continuation fails
there, it fails from every later start as well (all later candidate
positions are also reachable from the earlier start), so the scan is over. -/
def matchFrom (text : Str) (p : QuantPattern) (s : Nat) : Option (Nat × Nat) :=
  match p.lits with
  | [] => none
  | l :: ls =>
    match findFrom text l s with
    | none => none
    | some p1 =>
      match chaseLits text ls (p1 + l.length) with
      | none => none
      | some pos => findNumber text p.tail (text.length + 1) pos

/-- All `re.finditer` matches of a quantitative pattern: repeated
`matchFrom`, resuming after the end of each (non-empty) match. -/
def allMatches (text : Str) (p : QuantPattern) : Nat → Nat → List Nat
  | 0, _ => []
  | fuel + 1, s =>
    match matchFrom text p s with
    | none => []
    | some (v, e) => v :: allMatches text p fuel e

/-- The captured numeric values of all matches of `p` in `text`. -/
def quantMatches (text : Str) (p : QuantPattern) : List Nat :=
  allMatches text p (text.length + 1) 0

/-- Python `s.replace(a, b)` for single characters. -/
def replaceChar (s : Str) (a b : Char) : Str :=
  s.map fun c => if c = a then b else c

/-- Python `str.title()` for the all-lowercase words it is applied to:
the first letter of every alphabetic run is upper-cased. -/
def pyTitle (s : Str) : Str :=
  (s.foldl (fun (acc : Str × Bool) c =>
    let isAl := c.isAlpha
    (acc.1 ++ [if isAl && !acc.2 then c.toUpper else c], isAl)) ([], false)).1

/-- Python float formatting of the captured integer (`25` prints as
`25.0`). -/
def floatStr (n : Nat) : Str := (toString n).data ++ ".0".data

/-- `AdvancedAnalyzer._analyze_quantitative`.  The `try: float(...)` of the
source cannot fail on a `\d+` capture, so no error path remains. -/
def _analyze_quantitative (text : Str) : List AdvancedSignal :=
  quantitative_patterns.flatMap fun config =>
    config.patterns.flatMap fun pattern =>
      (quantMatches text pattern).filterMap fun (v : Nat) =>
        let value : ℚ := (v : ℚ)
        if config.threshold ≤ value then
          some
            { signal_type := "quantitative_".data ++ config.metric
              strength := pyMin 1 (value / (config.threshold * 2)) * config.weight
              explanation :=
                pyTitle (replaceChar config.metric '_' ' ') ++ ": ".data ++
                  floatStr v ++ "%+ detected".data
              confidence := 0.8
              timeframe := "short-term".data }
        else none
def competitive_patterns : List (Str × List Str) := ([
  ("patents", ["patent", "patentansökan", "immaterialrätt", "intellectual property", "teknisk genombrott", "innovation", "forskningsresultat"]),
  ("regulatory_moat", ["regulatoriskt godkännande", "licens", "certifiering", "FDA-godkännande", "CE-märkning", "regulatory approval", "compliance"]),
  ("exclusive_deals", ["exklusiv", "exclusive", "ensamrätt", "partnerskap", "strategiskt samarbete"]),
  ("barriers_to_entry", ["barriärer", "svår att kopiera", "unique", "unik position", "först i världen"])
  ] : List (String × List String)).map (fun p => (p.1.data, p.2.map String.data))

def management_patterns : List (Str × List Str) := ([
  ("insider_buying", ["vd köper aktier", "ledning köper", "insider buying", "management köp"]),
  ("leadership_change", ["ny vd", "new ceo", "ledningsbyte", "management change"]),
  ("strategic_vision", ["strategisk plan", "vision", "transformation", "omstrukturering"])
  ] : List (String × List String)).map (fun p => (p.1.data, p.2.map String.data))

def timing_patterns : List (Str × List Str) := ([
  ("earnings_surprise", ["överträffade förväntningarna", "beat expectations", "bättre än väntat"]),
  ("guidance_raise", ["höjer prognos", "raises guidance", "uppjusterar", "förbättrad prognos"]),
  ("analyst_upgrades", ["uppgraderad", "köpråd", "buy rating", "target price raised"]),
  ("institutional_buying", ["institutionella investerare", "institutional buying", "fonder köper"])
  ] : List (String × List String)).map (fun p => (p.1.data, p.2.map String.data))

def tailwind_patterns : List (Str × List Str) := ([
  ("sector_rotation", ["sektorrotation", "sector rotation", "branschtrend"]),
  ("regulatory_tailwinds", ["gynnsam reglering", "regulatory support", "statligt stöd"]),
  ("demographic_trends", ["demografisk trend", "aging population", "urbanisering"]),
  ("technology_adoption", ["teknisk adoption", "digital transformation", "AI adoption"])
  ] : List (String × List String)).map (fun p => (p.1.data, p.2.map String.data))

def value_patterns : List (Str × List Str) := ([
  ("undervalued", ["undervärderad", "undervalued", "lågt värderad", "rabatt"]),
  ("asset_value", ["tillgångsvärde", "asset value", "bokfört värde", "substansvärde"]),
  ("cash_rich", ["kassarik", "cash rich", "stark balansräkning", "skuldfri"])
  ] : List (String × List String)).map (fun p => (p.1.data, p.2.map String.data))

def risk_keywords : List Str := ([
  "varning", "warning", "förlust", "loss", "nedgång", "decline",
  "konkurrens", "competition", "reglering", "regulation threat", "skulder", "debt",
  "lawsuit", "stämning", "investigation"
  ] : List String).map String.data
/-- `AdvancedAnalyzer._analyze_competitive_advantage`.  `keyword in text`
is a plain substring test against the already lower-cased text; keywords of
the table that contain upper-case letters can therefore never match. -/
def _analyze_competitive_advantage (text : Str) : List AdvancedSignal :=
  competitive_patterns.flatMap fun p =>
    -- `matches` of the source; renamed, `matches` is reserved in Lean
    let match_count := (p.2.filter fun keyword => containsSub text keyword).length
    if match_count > 0 then
      [{ signal_type := "competitive_".data ++ p.1
         strength := pyMin 1 ((match_count : ℚ) / 3) * 0.7
         explanation :=
           "Competitive advantage: ".data ++ replaceChar p.1 '_' ' ' ++
             " indicators found".data
         confidence := 0.6
         timeframe := "long-term".data }]
    else []

/-- The `strength_map` of `_analyze_management`. -/
def management_strength_map : List (Str × ℚ) :=
  [("insider_buying".data, 0.8), ("leadership_change".data, 0.6),
    ("strategic_vision".data, 0.5)]

/-- `AdvancedAnalyzer._analyze_management`. -/
def _analyze_management (text : Str) : List AdvancedSignal :=
  management_patterns.flatMap fun p =>
    if p.2.any (fun keyword => containsSub text keyword) then
      [{ signal_type := "management_".data ++ p.1
         strength := (List.lookup p.1 management_strength_map).getD 0.5
         explanation := "Management signal: ".data ++ replaceChar p.1 '_' ' '
         confidence := 0.7
         timeframe := "medium-term".data }]
    else []

/-- The `strength_map` of `_analyze_timing`. -/
def timing_strength_map : List (Str × ℚ) :=
  [("earnings_surprise".data, 0.9), ("guidance_raise".data, 0.8),
    ("analyst_upgrades".data, 0.7), ("institutional_buying".data, 0.6)]

/-- `AdvancedAnalyzer._analyze_timing`. -/
def _analyze_timing (text : Str) : List AdvancedSignal :=
  timing_patterns.flatMap fun p =>
    if p.2.any (fun keyword => containsSub text keyword) then
      [{ signal_type := "timing_".data ++ p.1
         strength := (List.lookup p.1 timing_strength_map).getD 0.5
         explanation := "Timing signal: ".data ++ replaceChar p.1 '_' ' '
         confidence := 0.8
         timeframe := "immediate".data }]
    else []

/-- `AdvancedAnalyzer._analyze_tailwinds`. -/
def _analyze_tailwinds (text : Str) : List AdvancedSignal :=
  tailwind_patterns.flatMap fun p =>
    if p.2.any (fun keyword => containsSub text keyword) then
      [{ signal_type := "tailwind_".data ++ p.1
         strength := 0.6
         explanation := "Tailwind: ".data ++ replaceChar p.1 '_' ' '
         confidence := 0.5
         timeframe := "long-term".data }]
    else []

/-- The `strength_map` of `_analyze_value`. -/
def value_strength_map : List (Str × ℚ) :=
  [("undervalued".data, 0.7), ("asset_value".data, 0.6), ("cash_rich".data, 0.8)]

/-- `AdvancedAnalyzer._analyze_value`. -/
def _analyze_value (text : Str) : List AdvancedSignal :=
  value_patterns.flatMap fun p =>
    if p.2.any (fun keyword => containsSub text keyword) then
      [{ signal_type := "value_".data ++ p.1
         strength := (List.lookup p.1 value_strength_map).getD 0.5
         explanation := "Value signal: ".data ++ replaceChar p.1 '_' ' '
         confidence := 0.6
         timeframe := "medium-term".data }]
    else []

/-- `AdvancedAnalyzer._analyze_risks`. -/
def _analyze_risks (text : Str) : List AdvancedSignal :=
  let risk_count := (risk_keywords.filter fun keyword => containsSub text keyword).length
  if risk_count > 0 then
    [{ signal_type := "risk_factors".data
       strength := -(pyMin 1 ((risk_count : ℚ) / 3))
       explanation :=
         "Risk factors detected: ".data ++ (toString risk_count).data ++
           " indicators".data
       confidence := 0.7
       timeframe := "immediate".data }]
  else []

/-- `AdvancedAnalyzer.analyze_advanced_signals`: the seven families run over
the concatenated lower-cased text (no `strip` here, unlike the keyword
matcher). -/
def analyze_advanced_signals (title content snippet : Str) : List AdvancedSignal :=
  let full_text := pyLower (title ++ [' '] ++ content ++ [' '] ++ snippet)
  _analyze_quantitative full_text ++
    _analyze_competitive_advantage full_text ++
    _analyze_management full_text ++
    _analyze_timing full_text ++
    _analyze_tailwinds full_text ++
    _analyze_value full_text ++
    _analyze_risks full_text

/-- The dict returned by `calculate_advanced_score`.  Its empty-input branch
returns a dict *without* the `risk_factors` key, hence the `Option`. -/
structure AdvancedMetrics where
  advanced_score : ℚ
  confidence : ℚ
  signal_count : Nat
  risk_adjusted_score : ℚ
  risk_factors : Option ℚ
deriving DecidableEq

/-- One iteration of the accumulation loop of `calculate_advanced_score`
over `(total_score, total_weight, risk_adjustment)`. -/
def scoreStep (acc : ℚ × ℚ × ℚ) (signal : AdvancedSignal) : ℚ × ℚ × ℚ :=
  let weight := signal.confidence
  if signal.strength < 0 then
    (acc.1, acc.2.1, acc.2.2 + |signal.strength| * weight)
  else
    (acc.1 + signal.strength * weight, acc.2.1 + weight, acc.2.2)

/-- The accumulation loop of `calculate_advanced_score`: running
`(total_score, total_weight, risk_adjustment)`. -/
def scoreLoop (signals : List AdvancedSignal) : ℚ × ℚ × ℚ :=
  signals.foldl scoreStep (0, 0, 0)

/-- `AdvancedAnalyzer.calculate_advanced_score`. -/
def calculate_advanced_score (signals : List AdvancedSignal) : AdvancedMetrics :=
  if signals.isEmpty then
    { advanced_score := 0, confidence := 0, signal_count := 0,
      risk_adjusted_score := 0, risk_factors := none }
  else
    let acc := scoreLoop signals
    let total_score := acc.1
    let total_weight := acc.2.1
    let risk_adjustment := acc.2.2
    let advanced_score := if total_weight > 0 then total_score / total_weight else 0
    let risk_adjusted_score := pyMax 0 (advanced_score - risk_adjustment)
    let avg_confidence := (signals.map (·.confidence)).sum / (signals.length : ℚ)
    { advanced_score := advanced_score
      confidence := avg_confidence
      signal_count := signals.length
      risk_adjusted_score := risk_adjusted_score
      risk_factors := some risk_adjustment }

/-- `signal_type.split('_')[0]`. -/
def sigCategory (signal_type : Str) : Str :=
  signal_type.takeWhile (fun c => c ≠ '_')

/-- Python `" | ".join(parts)`-style joining. -/
def joinSep (sep : Str) : List Str → Str
  | [] => []
  | [p] => p
  | p :: ps => p ++ sep ++ joinSep sep ps

/-- `AdvancedAnalyzer.get_signal_summary`.  The source groups signals by
category in a dict (insertion order) and reports the per-category count of
signals with strength above 0.6. -/
def get_signal_summary (signals : List AdvancedSignal) : Str :=
  if signals.isEmpty then "No advanced signals detected".data
  else
    let categories := (signals.map fun s => sigCategory s.signal_type).eraseDups
    let summary_parts := categories.flatMap fun category =>
      let strong := (signals.filter fun s =>
        sigCategory s.signal_type == category && decide (s.strength > 0.6)).length
      if strong > 0 then
        [pyTitle category ++ "(".data ++ (toString strong).data ++ ")".data]
      else []
    if summary_parts.isEmpty then "Weak signals detected".data
    else joinSep " | ".data summary_parts

end AdvancedAnalyzer

/-- `NewsClassification` dataclass of `src/nlp/classify.py`. -/
structure NewsClassification where
  relevance_score : ℚ
  sentiment_score : ℚ
  sentiment_label : Str
  impact_level : Str
  has_catalyst : Bool
  categories : List Str
  summary : Str
  advanced_signals : List AdvancedSignal := []
  advanced_score : ℚ := 0
  risk_adjusted_score : ℚ := 0
  signal_confidence : ℚ := 0
  final_score : ℚ := 0
  recommendation : Str := []
  timeframe : Str := []
  positive_keywords : List KeywordMatch := []
  negative_keywords : List KeywordMatch := []
  catalyst_keywords : List KeywordMatch := []
deriving DecidableEq

namespace NewsClassifier

/-- The `signal_weights` table of `NewsClassifier._calculate_relevance_score`. -/
def signal_weights : List (Str × ℚ) :=
  [("quantitative".data, 0.3), ("timing".data, 0.25), ("competitive".data, 0.2),
    ("management".data, 0.15), ("tailwind".data, 0.05), ("value".data, 0.05)]

/-- One iteration of the loop of `_calculate_relevance_score` over
`(weighted_score, total_weight)`. -/
def relevanceStep (acc : ℚ × ℚ) (signal : AdvancedSignal) : ℚ × ℚ :=
  if signal.strength > 0 then
    let signal_category := AdvancedAnalyzer.sigCategory signal.signal_type
    let weight := (List.lookup signal_category signal_weights).getD 0.1
    (acc.1 + signal.strength * weight * signal.confidence,
      acc.2 + weight * signal.confidence)
  else acc

/-- The accumulation loop of `_calculate_relevance_score`: running
`(weighted_score, total_weight)` over the positive-strength signals. -/
def relevanceLoop (advanced_signals : List AdvancedSignal) : ℚ × ℚ :=
  advanced_signals.foldl relevanceStep (0, 0)

/-- `NewsClassifier._calculate_relevance_score`. -/
def _calculate_relevance_score (positive_keywords negative_keywords catalyst_keywords :
    List KeywordMatch) (advanced_signals : List AdvancedSignal) : ℚ :=
  let keyword_relevance :=
    SwedishFinancialKeywords.calculate_relevance_score positive_keywords
      negative_keywords catalyst_keywords * 0.4
  let signal_relevance : ℚ :=
    if advanced_signals.isEmpty then 0
    else
      let acc := relevanceLoop advanced_signals
      if acc.2 > 0 then acc.1 / acc.2 * 0.6 else 0
  pyMin 1 (keyword_relevance + signal_relevance)

/-- `NewsClassifier._determine_enhanced_impact_level`. -/
def _determine_enhanced_impact_level (relevance_score sentiment_score : ℚ)
    (catalyst_keywords : List KeywordMatch)
    (advanced_signals : List AdvancedSignal) : Str :=
  let high_impact_signals := advanced_signals.filter fun signal =>
    decide (signal.strength > 0.7) &&
      (("quantitative_".data : Str).isPrefixOf signal.signal_type ||
        ("timing_".data : Str).isPrefixOf signal.signal_type)
  let immediate_signals := advanced_signals.filter fun signal =>
    signal.timeframe == "immediate".data && decide (signal.strength > 0.6)
  if !high_impact_signals.isEmpty || !immediate_signals.isEmpty then "high".data
  else if relevance_score > 0.7 ∧ (sentiment_score > 0.3 ∨ catalyst_keywords.length > 1) then
    "high".data
  else if relevance_score > 0.4 ∧ (sentiment_score > 0.1 ∨ catalyst_keywords.length > 0) then
    "medium".data
  else "low".data

/-- `NewsClassifier._classify_enhanced_categories`.  `list(set(...))` has
unspecified iteration order in Python; the embedding fixes first-occurrence
order before the `[:5]` truncation. -/
def _classify_enhanced_categories (positive_keywords catalyst_keywords :
    List KeywordMatch) (advanced_signals : List AdvancedSignal) : List Str :=
  let categories :=
    SwedishFinancialKeywords.classify_categories positive_keywords catalyst_keywords
  let signal_categories := advanced_signals.flatMap fun signal =>
    if signal.strength > 0.5 then
      if containsSub signal.signal_type "quantitative".data then
        ["financial_metrics".data]
      else if containsSub signal.signal_type "competitive".data then
        ["competitive_advantage".data]
      else if containsSub signal.signal_type "management".data then
        ["governance".data]
      else if containsSub signal.signal_type "timing".data then
        ["market_timing".data]
      else if containsSub signal.signal_type "value".data then
        ["value_opportunity".data]
      else []
    else []
  ((categories ++ signal_categories).eraseDups).take 5

/-- `NewsClassifier._get_recommendation`. -/
def _get_recommendation (final_score : ℚ) (advanced_signals : List AdvancedSignal) :
    Str × Str :=
  let immediate_signals := advanced_signals.filter fun s =>
    s.timeframe == "immediate".data && decide (s.strength > 0.6)
  let short_term_signals := advanced_signals.filter fun s =>
    s.timeframe == "short-term".data && decide (s.strength > 0.5)
  let recommendation :=
    if final_score ≥ 0.8 then "STRONG BUY".data
    else if final_score ≥ 0.6 then "BUY".data
    else if final_score ≥ 0.4 then "WATCH".data
    else if final_score ≥ 0.2 then "WEAK SIGNAL".data
    else "IGNORE".data
  let timeframe :=
    if !immediate_signals.isEmpty then "Immediate (1-3 days)".data
    else if !short_term_signals.isEmpty then "Short-term (1-4 weeks)".data
    else if final_score ≥ 0.6 then "Medium-term (1-3 months)".data
    else "Long-term (3+ months)".data
  (recommendation, timeframe)

/-- `NewsClassifier._calculate_final_score`; returns
`(final_score, recommendation, timeframe)`. -/
def _calculate_final_score (relevance_score sentiment_score : ℚ)
    (advanced_metrics : AdvancedAnalyzer.AdvancedMetrics)
    (advanced_signals : List AdvancedSignal) : ℚ × Str × Str :=
  let keyword_weight : ℚ := 0.3
  let relevance_weight : ℚ := 0.2
  let advanced_weight : ℚ := 0.4
  let risk_adjustment_weight : ℚ := 0.1
  let keyword_component := sentiment_score * keyword_weight
  let relevance_component := relevance_score * relevance_weight
  let advanced_component := advanced_metrics.risk_adjusted_score * advanced_weight
  -- `advanced_metrics.get('risk_factors', 0)`
  let risk_penalty := (advanced_metrics.risk_factors.getD 0) * risk_adjustment_weight
  let final_score :=
    pyMax 0 (keyword_component + relevance_component + advanced_component - risk_penalty)
  let rt := _get_recommendation final_score advanced_signals
  (final_score, rt.1, rt.2)

/-- `NewsClassifier._get_sentiment_label`. -/
def _get_sentiment_label (sentiment_score : ℚ) : Str :=
  if sentiment_score > 0.3 then "Very Positive".data
  else if sentiment_score > 0.1 then "Positive".data
  else if sentiment_score > -0.1 then "Neutral".data
  else if sentiment_score > -0.3 then "Negative".data
  else "Very Negative".data

/-- Python `str.upper()` restricted to the ASCII strings it is applied to
(the impact levels `low` / `medium` / `high`). -/
def pyUpper (s : Str) : Str := s.map Char.toUpper

/-- `NewsClassifier._create_enhanced_summary`. -/
def _create_enhanced_summary (relevance_score sentiment_score : ℚ)
    (impact_level : Str) (has_catalyst : Bool) (categories : List Str)
    (advanced_signals : List AdvancedSignal)
    (pos_count neg_count cat_count : Nat) : Str :=
  let summary_parts : List Str :=
    ["Impact: ".data ++ pyUpper impact_level,
      "Tone: ".data ++ _get_sentiment_label sentiment_score,
      "Categories: ".data ++
        (if categories.isEmpty then "General".data
          else AdvancedAnalyzer.joinSep ", ".data (categories.take 3)),
      "Keywords: ".data ++ (toString pos_count).data ++ "+ ".data ++
        (toString neg_count).data ++ "- ".data ++ (toString cat_count).data ++
        "⚡".data]
  let summary_parts :=
    if !advanced_signals.isEmpty then
      summary_parts ++
        ["Signals: ".data ++ AdvancedAnalyzer.get_signal_summary advanced_signals]
    else summary_parts
  let summary_parts :=
    if has_catalyst then summary_parts ++ ["⚡ CATALYST EVENT".data]
    else summary_parts
  AdvancedAnalyzer.joinSep " | ".data summary_parts

/-- `NewsClassifier._create_empty_enhanced_classification`. -/
def _create_empty_enhanced_classification : NewsClassification :=
  { relevance_score := 0
    sentiment_score := 0
    sentiment_label := "Unknown".data
    impact_level := "low".data
    has_catalyst := false
    categories := []
    summary := "Analysis failed".data
    advanced_signals := []
    advanced_score := 0
    risk_adjusted_score := 0
    signal_confidence := 0
    final_score := 0
    recommendation := "IGNORE".data
    timeframe := "Unknown".data }

/-- The body of the `try:` block of `NewsClassifier.classify_news`, typed in
`Except` because Python may raise; in this model every step is total, so the
body always returns `Except.ok`. -/
def classify_news_body (title content snippet : Str) :
    Except String NewsClassification :=
  let positive_keywords :=
    SwedishFinancialKeywords.extract_positive_keywords title content snippet
  let negative_keywords :=
    SwedishFinancialKeywords.extract_negative_keywords title content snippet
  let catalyst_keywords :=
    SwedishFinancialKeywords.extract_catalyst_keywords title content snippet
  let advanced_signals :=
    AdvancedAnalyzer.analyze_advanced_signals title content snippet
  let advanced_metrics := AdvancedAnalyzer.calculate_advanced_score advanced_signals
  let relevance_score :=
    _calculate_relevance_score positive_keywords negative_keywords
      catalyst_keywords advanced_signals
  let sentiment_score :=
    SwedishFinancialKeywords.calculate_sentiment_score positive_keywords
      negative_keywords
  let impact_level :=
    _determine_enhanced_impact_level relevance_score sentiment_score
      catalyst_keywords advanced_signals
  let has_catalyst :=
    decide (catalyst_keywords.length > 0) ||
      advanced_signals.any fun signal => containsSub signal.signal_type "timing_".data
  let categories :=
    _classify_enhanced_categories positive_keywords catalyst_keywords advanced_signals
  let fsrt :=
    _calculate_final_score relevance_score sentiment_score advanced_metrics
      advanced_signals
  let summary :=
    _create_enhanced_summary relevance_score sentiment_score impact_level
      has_catalyst categories advanced_signals positive_keywords.length
      negative_keywords.length catalyst_keywords.length
  Except.ok
    { relevance_score := relevance_score
      sentiment_score := sentiment_score
      sentiment_label := _get_sentiment_label sentiment_score
      impact_level := impact_level
      has_catalyst := has_catalyst
      categories := categories
      summary := summary
      advanced_signals := advanced_signals
      advanced_score := advanced_metrics.advanced_score
      risk_adjusted_score := advanced_metrics.risk_adjusted_score
      signal_confidence := advanced_metrics.confidence
      final_score := fsrt.1
      recommendation := fsrt.2.1
      timeframe := fsrt.2.2
      positive_keywords := positive_keywords
      negative_keywords := negative_keywords
      catalyst_keywords := catalyst_keywords }

/-- The `except Exception` handler of `classify_news`: any error is replaced
by the fixed empty classification. -/
def handle_classify (r : Except String NewsClassification) : NewsClassification :=
  match r with
  | Except.ok c => c
  | Except.error _ => _create_empty_enhanced_classification

/-- `NewsClassifier.classify_news`: the `try:` body guarded by the
`except Exception` handler; total by construction. -/
def classify_news (title content snippet : Str) : NewsClassification :=
  handle_classify (classify_news_body title content snippet)

end NewsClassifier

namespace NewsClassifier

/-- The `'classification'` entry of one item of a classified-news batch:
the key may be absent, may hold Python `None`, or may hold a
`NewsClassification` object. -/
inductive ClassificationSlot where
  | missing
  | pynone
  | val (c : NewsClassification)

/-- One item of the batch passed to `get_enhanced_insights` (the metadata
keys of the dict are never inspected). -/
structure NewsItem where
  classification : ClassificationSlot

/-- The dict returned by `get_enhanced_insights`; `signal_breakdown` is
absent (`none`) on the empty-input path. -/
structure EnhancedInsights where
  total_items : Nat
  strong_opportunities : Nat
  advanced_signals_detected : Nat
  signal_breakdown : Option (List (Str × Nat))
  insights : Str

/-- `item.get('classification', {}).final_score`: with the key absent the
default `{}` is a dict and has no attribute `final_score`; with the key
mapped to `None` the attribute access fails as well.  Both raise
`AttributeError`. -/
def final_score_of (slot : ClassificationSlot) : Except String ℚ :=
  match slot with
  | ClassificationSlot.missing =>
    Except.error "AttributeError: dict object has no attribute final_score"
  | ClassificationSlot.pynone =>
    Except.error "AttributeError: NoneType object has no attribute final_score"
  | ClassificationSlot.val c => Except.ok c.final_score

/-- The per-category frequency table `signal_types` of
`get_enhanced_insights` (a dict accumulated in insertion order). -/
def signal_type_counts (all_signals : List AdvancedSignal) : List (Str × Nat) :=
  let cats := (all_signals.map fun s => AdvancedAnalyzer.sigCategory s.signal_type).eraseDups
  cats.map fun c =>
    (c, (all_signals.filter fun s => AdvancedAnalyzer.sigCategory s.signal_type == c).length)

/-- `NewsClassifier.get_enhanced_insights`.  The `strong_opportunities` list
comprehension evaluates `item.get('classification', {}).final_score` for
every item, so a batch containing an item without a proper classification
raises `AttributeError` out of the method. -/
def get_enhanced_insights (classified_news : List NewsItem) :
    Except String EnhancedInsights :=
  if classified_news.isEmpty then
    Except.ok
      { total_items := 0
        strong_opportunities := 0
        advanced_signals_detected := 0
        signal_breakdown := none
        insights := "No news to analyze".data }
  else
    (classified_news.mapM fun item => final_score_of item.classification).bind
      fun final_scores =>
        let total_items := classified_news.length
        let strong_opportunities :=
          (final_scores.filter fun q => decide (q ≥ 0.6)).length
        -- the second loop guards with `if classification and hasattr(...)`
        let all_signals := classified_news.flatMap fun item =>
          match item.classification with
          | ClassificationSlot.val c => c.advanced_signals
          | _ => []
        let signal_types := signal_type_counts all_signals
        let insights_parts : List Str :=
          (if strong_opportunities > 0 then
            ["🚀 ".data ++ (toString strong_opportunities).data ++
              " strong opportunities detected".data]
          else []) ++
          (if !signal_types.isEmpty then
            let top_signals :=
              (signal_types.mergeSort fun a b => decide (b.2 ≤ a.2)).take 3
            let signal_summary :=
              AdvancedAnalyzer.joinSep ", ".data
                (top_signals.map fun p =>
                  p.1 ++ "(".data ++ (toString p.2).data ++ ")".data)
            ["📊 Advanced signals: ".data ++ signal_summary]
          else [])
        Except.ok
          { total_items := total_items
            strong_opportunities := strong_opportunities
            advanced_signals_detected := all_signals.length
            signal_breakdown := some signal_types
            insights :=
              if !insights_parts.isEmpty then
                AdvancedAnalyzer.joinSep " | ".data insights_parts
              else "Market analysis complete".data }

end NewsClassifier

/-! Derived quantities used by the verification below. -/

/-- The `sentiment_score` computed by the keyword pipeline for an article
(`classify_news` step 3). -/
def sentiment_of (title content snippet : Str) : ℚ :=
  SwedishFinancialKeywords.calculate_sentiment_score
    (SwedishFinancialKeywords.extract_positive_keywords title content snippet)
    (SwedishFinancialKeywords.extract_negative_keywords title content snippet)

/-- The total score of the positive keyword matches of an article. -/
def positive_score_sum (title content snippet : Str) : ℚ :=
  ((SwedishFinancialKeywords.extract_positive_keywords title content snippet).map
    (·.score)).sum

/-- The positive `KeywordMatch` that `extract_keywords` produces for the
text `samarbete`. -/
def samarbete_match : KeywordMatch :=
  { keyword := "samarbete".data
    category := "positive".data
    position := 0
    context := "samarbete".data
    score := 0.8 }

/-- A single risk signal (the shape emitted by `_analyze_risks` for a text
with two risk keywords). -/
def c6_signal : AdvancedSignal :=
  { signal_type := "risk_factors".data
    strength := -(pyMin 1 ((2 : ℚ) / 3))
    explanation := "Risk factors detected: 2 indicators".data
    confidence := 0.7
    timeframe := "immediate".data }

/-- Invariant satisfied by every signal the analyzer emits: strength in
`[-1, 1]`, confidence in `[0, 1]`. -/
abbrev SignalOK (s : AdvancedSignal) : Prop :=
  -1 ≤ s.strength ∧ s.strength ≤ 1 ∧ 0 ≤ s.confidence ∧ s.confidence ≤ 1

/-! Helper lemmas. -/

theorem pyMin_le_left (a b : ℚ) : pyMin a b ≤ a := by
  unfold pyMin; split_ifs with h <;> linarith

theorem pyMin_le_right (a b : ℚ) : pyMin a b ≤ b := by
  unfold pyMin; split_ifs with h <;> linarith

theorem le_pyMin {a b c : ℚ} (ha : c ≤ a) (hb : c ≤ b) : c ≤ pyMin a b := by
  unfold pyMin; split_ifs <;> assumption

theorem pyMax_le {a b c : ℚ} (ha : a ≤ c) (hb : b ≤ c) : pyMax a b ≤ c := by
  unfold pyMax; split_ifs <;> assumption

theorem le_pyMax_left (a b : ℚ) : a ≤ pyMax a b := by
  unfold pyMax; split_ifs with h <;> linarith

theorem le_pyMax_right (a b : ℚ) : b ≤ pyMax a b := by
  unfold pyMax; split_ifs with h <;> linarith

theorem pyMin_mono_right {a b b' : ℚ} (h : b ≤ b') : pyMin a b ≤ pyMin a b' := by
  unfold pyMin; split_ifs <;> linarith

/-- Closed form of `_calculate_keyword_score`: base 0.5 plus three
independent bonuses, clamped at 1. -/
theorem keyword_score_eq (keyword : Str) (position text_length : Nat) :
    SwedishFinancialKeywords._calculate_keyword_score keyword position text_length =
      pyMin 1 (0.5 +
        (if (position : ℚ) < (text_length : ℚ) * 0.1 then 0.3
          else if (position : ℚ) < (text_length : ℚ) * 0.3 then 0.2 else 0) +
        (if keyword.length > 20 then 0.2
          else if keyword.length > 10 then 0.1 else 0) +
        (if keyword ∈ SwedishFinancialKeywords.CATALYST_KEYWORDS then 0.1 else 0)) := by
  simp only [SwedishFinancialKeywords._calculate_keyword_score]
  split_ifs <;> norm_num

/-- Every per-match keyword score lies in `[0.5, 1]`. -/
theorem keyword_score_range (keyword : Str) (position text_length : Nat) :
    0.5 ≤ SwedishFinancialKeywords._calculate_keyword_score keyword position text_length ∧
      SwedishFinancialKeywords._calculate_keyword_score keyword position text_length ≤ 1 := by
  rw [keyword_score_eq]
  constructor
  · apply le_pyMin
    · norm_num
    · split_ifs <;> norm_num
  · exact pyMin_le_left 1 _

/-- Every match produced by `_find_keywords` has its score given by
`_calculate_keyword_score` at its position. -/
theorem mem_find_keywords (text : Str) (kws : List Str) (cat : Str)
    (m : KeywordMatch)
    (hm : m ∈ SwedishFinancialKeywords._find_keywords text kws cat) :
    ∃ k ∈ kws, ∃ pos,
      m.score = SwedishFinancialKeywords._calculate_keyword_score k pos text.length := by
  simp only [SwedishFinancialKeywords._find_keywords, List.mem_flatMap,
    List.mem_map] at hm
  obtain ⟨k, hk, pos, _, rfl⟩ := hm
  exact ⟨k, hk, pos, rfl⟩

/-- Scores of matches returned by `extract_keywords` lie in `[0.5, 1]`. -/
theorem extract_score_range (text : Str) (m : KeywordMatch)
    (hm : m ∈ (SwedishFinancialKeywords.extract_keywords text).positive ++
        (SwedishFinancialKeywords.extract_keywords text).negative ++
        (SwedishFinancialKeywords.extract_keywords text).catalyst) :
    0.5 ≤ m.score ∧ m.score ≤ 1 := by
  simp only [List.mem_append] at hm
  have hfind : ∃ kws cat, m ∈
      SwedishFinancialKeywords._find_keywords (pyLower text) kws cat := by
    unfold SwedishFinancialKeywords.extract_keywords at hm
    split_ifs at hm with h
    · rcases hm with (hm | hm) | hm <;> simp at hm
    · rcases hm with (hm | hm) | hm
      · exact ⟨_, _, hm⟩
      · exact ⟨_, _, hm⟩
      · exact ⟨_, _, hm⟩
  obtain ⟨kws, cat, hf⟩ := hfind
  obtain ⟨k, _, pos, hs⟩ := mem_find_keywords _ _ _ _ hf
  rw [hs]
  exact keyword_score_range k pos (pyLower text).length

/-- `_get_recommendation` as the plain threshold chain on its first
component. -/
theorem getRec_fst (final_score : ℚ) (advanced_signals : List AdvancedSignal) :
    (NewsClassifier._get_recommendation final_score advanced_signals).1 =
      if 0.8 ≤ final_score then "STRONG BUY".data
      else if 0.6 ≤ final_score then "BUY".data
      else if 0.4 ≤ final_score then "WATCH".data
      else if 0.2 ≤ final_score then "WEAK SIGNAL".data
      else "IGNORE".data := by
  simp only [NewsClassifier._get_recommendation, ge_iff_le]

/-! Claim theorems (part one). -/

/-- C7: for every matched phrase, match position `p` and text length `L`,
the per-match keyword score equals
`min(1, 0.5 + posBonus + lenBonus + catBonus)` where `posBonus` is 0.3 for a
start in the first 10% of `L`, else 0.2 in the first 30%, else 0 (first
threshold wins); `lenBonus` is 0.2 for phrases longer than 20 characters,
else 0.1 for longer than 10, else 0; and `catBonus` is 0.1 exactly for
phrases of the catalyst vocabulary. -/
theorem C7_keyword_score_formula (phrase : Str) (p L : Nat) :
    SwedishFinancialKeywords._calculate_keyword_score phrase p L =
      pyMin 1 (0.5 +
        (if (p : ℚ) < (L : ℚ) * 0.1 then 0.3
          else if (p : ℚ) < (L : ℚ) * 0.3 then 0.2 else 0) +
        (if phrase.length > 20 then 0.2
          else if phrase.length > 10 then 0.1 else 0) +
        (if phrase ∈ SwedishFinancialKeywords.CATALYST_KEYWORDS then 0.1 else 0)) :=
  keyword_score_eq phrase p L

/-- C10: every `KeywordMatch` produced by `extract_keywords` has a score in
`[0.5, 1]`: the base is 0.5, every bonus is non-negative, and the result is
clamped at 1.  Hence each matched positive or negative keyword shifts
`sentiment_score` by at least 0.5 in magnitude. -/
theorem C10_extracted_score_range (text : Str) (m : KeywordMatch)
    (hm : m ∈ (SwedishFinancialKeywords.extract_keywords text).positive ++
        (SwedishFinancialKeywords.extract_keywords text).negative ++
        (SwedishFinancialKeywords.extract_keywords text).catalyst) :
    0.5 ≤ m.score ∧ m.score ≤ 1 :=
  extract_score_range text m hm

/-- Witness for C10: the match of the positive phrase `samarbete` in the
text `samarbete` (position 0, score 0.8). -/
theorem C10_witness :
    0.5 ≤ samarbete_match.score ∧ samarbete_match.score ≤ 1 :=
  C10_extracted_score_range "samarbete".data samarbete_match
    (by with_unfolding_all decide)

/-- C8: the recommendation label is determined exactly by the final-score
thresholds — `STRONG BUY` iff `final_score ≥ 0.8`, `BUY` iff
`0.6 ≤ final_score < 0.8`, `WATCH` iff `0.4 ≤ final_score < 0.6`,
`WEAK SIGNAL` iff `0.2 ≤ final_score < 0.4`, `IGNORE` iff
`final_score < 0.2`; and at the boundary values 0.8, 0.6, 0.4, 0.2 and 0.0
the labels are STRONG BUY, BUY, WATCH, WEAK SIGNAL and IGNORE. -/
theorem C8_recommendation_thresholds (fs : ℚ) (signals : List AdvancedSignal) :
    (((NewsClassifier._get_recommendation fs signals).1 = "STRONG BUY".data ↔
        0.8 ≤ fs) ∧
      ((NewsClassifier._get_recommendation fs signals).1 = "BUY".data ↔
        0.6 ≤ fs ∧ fs < 0.8) ∧
      ((NewsClassifier._get_recommendation fs signals).1 = "WATCH".data ↔
        0.4 ≤ fs ∧ fs < 0.6) ∧
      ((NewsClassifier._get_recommendation fs signals).1 = "WEAK SIGNAL".data ↔
        0.2 ≤ fs ∧ fs < 0.4) ∧
      ((NewsClassifier._get_recommendation fs signals).1 = "IGNORE".data ↔
        fs < 0.2)) ∧
    (NewsClassifier._get_recommendation (0.8 : ℚ) []).1 = "STRONG BUY".data ∧
    (NewsClassifier._get_recommendation (0.6 : ℚ) []).1 = "BUY".data ∧
    (NewsClassifier._get_recommendation (0.4 : ℚ) []).1 = "WATCH".data ∧
    (NewsClassifier._get_recommendation (0.2 : ℚ) []).1 = "WEAK SIGNAL".data ∧
    (NewsClassifier._get_recommendation (0 : ℚ) []).1 = "IGNORE".data := by
  have h := getRec_fst fs signals
  constructor
  · refine ⟨?_, ?_, ?_, ?_, ?_⟩ <;> rw [h] <;> constructor
    · intro hr
      split_ifs at hr with h1 h2 h3 h4
      · exact h1
      all_goals exact absurd hr (by decide)
    · intro h1
      split_ifs with h2 h3 h4 h5 <;> first | rfl | linarith
    · intro hr
      split_ifs at hr with h1 h2 h3 h4
      · exact absurd hr (by decide)
      · exact ⟨h2, lt_of_not_le h1⟩
      all_goals exact absurd hr (by decide)
    · intro hx
      split_ifs with h2 h3 h4 h5 <;> first | rfl | (exact absurd hx (by push_neg; intro; linarith)) | linarith
    · intro hr
      split_ifs at hr with h1 h2 h3 h4
      · exact absurd hr (by decide)
      · exact absurd hr (by decide)
      · exact ⟨h3, lt_of_not_le h2⟩
      all_goals exact absurd hr (by decide)
    · intro hx
      split_ifs with h2 h3 h4 h5 <;> first | rfl | (exact absurd hx (by push_neg; intro; linarith)) | linarith
    · intro hr
      split_ifs at hr with h1 h2 h3 h4
      · exact absurd hr (by decide)
      · exact absurd hr (by decide)
      · exact absurd hr (by decide)
      · exact ⟨h4, lt_of_not_le h3⟩
      · exact absurd hr (by decide)
    · intro hx
      split_ifs with h2 h3 h4 h5 <;> first | rfl | (exact absurd hx (by push_neg; intro; linarith)) | linarith
    · intro hr
      split_ifs at hr with h1 h2 h3 h4
      · exact absurd hr (by decide)
      · exact absurd hr (by decide)
      · exact absurd hr (by decide)
      · exact absurd hr (by decide)
      · exact lt_of_not_le h4
    · intro hx
      split_ifs with h2 h3 h4 h5 <;> first | rfl | linarith
  · refine ⟨?_, ?_, ?_, ?_, ?_⟩ <;> rw [getRec_fst] <;> norm_num

/-- C1: `classify_news` is the `try`-body guarded by the `except` handler —
it always returns a `NewsClassification` and never propagates an error; for
every internal error the handler returns the fixed empty classification,
whose fields are exactly: all five scores 0, `impact_level = "low"`,
`has_catalyst = false`, empty categories, `recommendation = "IGNORE"` and
`summary = "Analysis failed"`. -/
theorem C1_classify_news_catches :
    (∀ title content snippet : Str,
      NewsClassifier.classify_news title content snippet =
        NewsClassifier.handle_classify
          (NewsClassifier.classify_news_body title content snippet)) ∧
    (∀ e : String,
      NewsClassifier.handle_classify (Except.error e) =
        NewsClassifier._create_empty_enhanced_classification) ∧
    (NewsClassifier._create_empty_enhanced_classification.relevance_score = 0 ∧
      NewsClassifier._create_empty_enhanced_classification.sentiment_score = 0 ∧
      NewsClassifier._create_empty_enhanced_classification.advanced_score = 0 ∧
      NewsClassifier._create_empty_enhanced_classification.risk_adjusted_score = 0 ∧
      NewsClassifier._create_empty_enhanced_classification.signal_confidence = 0 ∧
      NewsClassifier._create_empty_enhanced_classification.final_score = 0 ∧
      NewsClassifier._create_empty_enhanced_classification.impact_level = "low".data ∧
      NewsClassifier._create_empty_enhanced_classification.has_catalyst = false ∧
      NewsClassifier._create_empty_enhanced_classification.categories = [] ∧
      NewsClassifier._create_empty_enhanced_classification.recommendation =
        "IGNORE".data ∧
      NewsClassifier._create_empty_enhanced_classification.summary =
        "Analysis failed".data) :=
  ⟨fun _ _ _ => rfl, fun _ => rfl,
    rfl, rfl, rfl, rfl, rfl, rfl, rfl, rfl, rfl, rfl, rfl⟩

/-- C5 (code bug): `get_keyword_summary` and `is_high_impact_news` raise
`TypeError` on *every* input — each calls `calculate_sentiment_score(text)`
with one argument while the method requires two — so the matcher does not
satisfy the never-throws contract; the other matcher operations are total in
this embedding by construction. -/
theorem C5_summary_operations_raise :
    (∀ text : Str, SwedishFinancialKeywords.get_keyword_summary text =
      Except.error
        "TypeError: calculate_sentiment_score() missing 1 required positional argument") ∧
    (∀ text : Str, SwedishFinancialKeywords.is_high_impact_news text =
      Except.error
        "TypeError: calculate_sentiment_score() missing 1 required positional argument") :=
  ⟨fun _ => rfl, fun _ => rfl⟩

/-- C9 (code bug): `get_enhanced_insights` returns the fixed all-zero
summary with insight string `No news to analyze` on the empty batch, but on
any non-empty batch whose first item lacks a proper `classification` entry
(key absent, or present as `None`) the `strong_opportunities` comprehension
evaluates `.final_score` on a dict or on `None` and raises
`AttributeError` — it does not return a summary for every batch. -/
theorem C9_insights_raise_on_missing_classification :
    (NewsClassifier.get_enhanced_insights [] = Except.ok
      { total_items := 0
        strong_opportunities := 0
        advanced_signals_detected := 0
        signal_breakdown := none
        insights := "No news to analyze".data }) ∧
    (∀ rest : List NewsClassifier.NewsItem,
      NewsClassifier.get_enhanced_insights
          (⟨NewsClassifier.ClassificationSlot.missing⟩ :: rest) =
        Except.error "AttributeError: dict object has no attribute final_score") ∧
    (∀ rest : List NewsClassifier.NewsItem,
      NewsClassifier.get_enhanced_insights
          (⟨NewsClassifier.ClassificationSlot.pynone⟩ :: rest) =
        Except.error "AttributeError: NoneType object has no attribute final_score") :=
  ⟨rfl, fun _ => rfl, fun _ => rfl⟩

/-! C6: `calculate_advanced_score`. -/

/-- The loop of `calculate_advanced_score` computes the three filtered sums,
for any starting accumulator. -/
theorem scoreStep_foldl (l : List AdvancedSignal) (a b c : ℚ) :
    l.foldl AdvancedAnalyzer.scoreStep (a, b, c) =
      (a + ((l.filter fun s => decide (0 ≤ s.strength)).map
          fun s => s.strength * s.confidence).sum,
        b + ((l.filter fun s => decide (0 ≤ s.strength)).map
          fun s => s.confidence).sum,
        c + ((l.filter fun s => decide (s.strength < 0)).map
          fun s => |s.strength| * s.confidence).sum) := by
  induction l generalizing a b c with
  | nil => simp
  | cons s t ih =>
    rw [List.foldl_cons]
    by_cases hs : s.strength < 0
    · have hns : ¬ (0 ≤ s.strength) := not_le.mpr hs
      have hstep : AdvancedAnalyzer.scoreStep (a, b, c) s =
          (a, b, c + |s.strength| * s.confidence) := by
        simp [AdvancedAnalyzer.scoreStep, hs]
      rw [hstep, ih]
      simp only [List.filter_cons, hs, hns, decide_eq_true_eq, if_true,
        if_false, List.map_cons, List.sum_cons]
      refine Prod.ext rfl (Prod.ext rfl ?_)
      ring
    · have hps : 0 ≤ s.strength := not_lt.mp hs
      have hstep : AdvancedAnalyzer.scoreStep (a, b, c) s =
          (a + s.strength * s.confidence, b + s.confidence, c) := by
        simp [AdvancedAnalyzer.scoreStep, hs]
      rw [hstep, ih]
      simp only [List.filter_cons, hs, hps, decide_eq_true_eq, if_true,
        if_false, List.map_cons, List.sum_cons]
      refine Prod.ext ?_ (Prod.ext ?_ rfl) <;> ring

/-- `scoreLoop` as the three filtered sums. -/
theorem scoreLoop_eq (signals : List AdvancedSignal) :
    AdvancedAnalyzer.scoreLoop signals =
      (((signals.filter fun s => decide (0 ≤ s.strength)).map
          fun s => s.strength * s.confidence).sum,
        ((signals.filter fun s => decide (0 ≤ s.strength)).map
          fun s => s.confidence).sum,
        ((signals.filter fun s => decide (s.strength < 0)).map
          fun s => |s.strength| * s.confidence).sum) := by
  have h := scoreStep_foldl signals 0 0 0
  simpa [AdvancedAnalyzer.scoreLoop] using h

/-- C6 counterexample: on the empty signal list the returned dict does not
contain the `risk_factors` key (the claim asserts all five fields are
present). -/
theorem C6_counterexample_empty_lacks_risk_factors :
    (AdvancedAnalyzer.calculate_advanced_score []).risk_factors = none := rfl

/-- C6 amended: on the empty list the four returned outputs are zero and the
`risk_factors` key is absent; on a non-empty list `advanced_score` is the
confidence-weighted average of strengths over signals with strength ≥ 0
(0 when their total confidence is not positive), `risk_adjusted_score` is
`max(0, advanced_score − Σ |strength|·confidence over negative-strength
signals)`, `confidence` is the mean confidence, `signal_count` the length,
and `risk_factors` is present and holds the risk penalty. -/
theorem C6_amended_advanced_score_spec :
    (AdvancedAnalyzer.calculate_advanced_score [] =
      { advanced_score := 0, confidence := 0, signal_count := 0,
        risk_adjusted_score := 0, risk_factors := none }) ∧
    ∀ signals : List AdvancedSignal, signals ≠ [] →
      let num := ((signals.filter fun s => decide (0 ≤ s.strength)).map
        fun s => s.strength * s.confidence).sum
      let den := ((signals.filter fun s => decide (0 ≤ s.strength)).map
        fun s => s.confidence).sum
      let risk := ((signals.filter fun s => decide (s.strength < 0)).map
        fun s => |s.strength| * s.confidence).sum
      AdvancedAnalyzer.calculate_advanced_score signals =
        { advanced_score := if 0 < den then num / den else 0
          confidence := (signals.map fun s => s.confidence).sum / (signals.length : ℚ)
          signal_count := signals.length
          risk_adjusted_score := pyMax 0 ((if 0 < den then num / den else 0) - risk)
          risk_factors := some risk } := by
  refine ⟨rfl, ?_⟩
  intro signals hne
  have hemp : signals.isEmpty = false := by
    cases signals with
    | nil => exact absurd rfl hne
    | cons a t => rfl
  simp only [AdvancedAnalyzer.calculate_advanced_score, hemp, Bool.false_eq_true,
    if_false, scoreLoop_eq]

/-- Witness for C6 amended: a single risk signal (the shape emitted by
`_analyze_risks`). -/
theorem C6_amended_witness :
    ([c6_signal] : List AdvancedSignal) ≠ [] ∧
      (let num := (([c6_signal].filter fun s => decide (0 ≤ s.strength)).map
        fun s => s.strength * s.confidence).sum
      let den := (([c6_signal].filter fun s => decide (0 ≤ s.strength)).map
        fun s => s.confidence).sum
      let risk := (([c6_signal].filter fun s => decide (s.strength < 0)).map
        fun s => |s.strength| * s.confidence).sum
      AdvancedAnalyzer.calculate_advanced_score [c6_signal] =
        { advanced_score := if 0 < den then num / den else 0
          confidence := ([c6_signal].map fun s => s.confidence).sum /
            (([c6_signal] : List AdvancedSignal).length : ℚ)
          signal_count := ([c6_signal] : List AdvancedSignal).length
          risk_adjusted_score := pyMax 0 ((if 0 < den then num / den else 0) - risk)
          risk_factors := some risk }) :=
  ⟨by decide, C6_amended_advanced_score_spec.2 [c6_signal] (by decide)⟩

/-! C4: substring matching without phrase boundaries. -/

/-- C4 counterexample: the positive phrase `samarbete` matches *inside* the
longer word `samarbetet`, at position 0 — the matcher enforces no phrase
boundary. -/
theorem C4_counterexample_matches_inside_word :
    (SwedishFinancialKeywords.extract_keywords "samarbetet".data).positive.map
      (fun m => (m.keyword, m.position)) = [("samarbete".data, 0)] := by
  with_unfolding_all decide

/-- `_find_keywords` over a cons splits as an append. -/
theorem find_keywords_cons (t : Str) (a : Str) (as : List Str) (c : Str) :
    SwedishFinancialKeywords._find_keywords t (a :: as) c =
      SwedishFinancialKeywords._find_keywords t [a] c ++
        SwedishFinancialKeywords._find_keywords t as c := by
  simp [SwedishFinancialKeywords._find_keywords]

/-- Every match produced for the keyword list `[k]` carries keyword `k`. -/
theorem find_keywords_keyword (t : Str) (k c : Str) (m : KeywordMatch)
    (hm : m ∈ SwedishFinancialKeywords._find_keywords t [k] c) :
    m.keyword = k := by
  simp only [SwedishFinancialKeywords._find_keywords, List.flatMap_cons,
    List.flatMap_nil, List.append_nil, List.mem_map] at hm
  obtain ⟨pos, _, rfl⟩ := hm
  rfl

/-- Matches of keywords other than `kw` never survive the `keyword = kw`
filter. -/
theorem find_keywords_filter_not_mem (t : Str) (l : List Str) (c kw : Str)
    (h : kw ∉ l) :
    (SwedishFinancialKeywords._find_keywords t l c).filter
      (fun m => m.keyword == kw) = [] := by
  induction l with
  | nil => rfl
  | cons a as ih =>
    have ha : a ≠ kw := fun hak => h (hak ▸ List.mem_cons_self a as)
    have has : kw ∉ as := fun hmem => h (List.mem_cons_of_mem a hmem)
    rw [find_keywords_cons, List.filter_append, ih has, List.append_nil,
      List.filter_eq_nil_iff]
    intro m hm
    rw [find_keywords_keyword t a c m hm]
    simpa using ha

/-- The filtered matches for the keyword list `[kw]` are one per occurrence
position. -/
theorem find_keywords_singleton (t : Str) (c kw : Str) :
    ((SwedishFinancialKeywords._find_keywords t [kw] c).filter
      (fun m => m.keyword == kw)).map (·.position) =
      findOccurrences t (pyLower kw) := by
  have h1 : (SwedishFinancialKeywords._find_keywords t [kw] c).filter
      (fun m => m.keyword == kw) =
      SwedishFinancialKeywords._find_keywords t [kw] c := by
    rw [List.filter_eq_self]
    intro m hm
    rw [find_keywords_keyword t kw c m hm]
    simp
  rw [h1]
  simp only [SwedishFinancialKeywords._find_keywords, List.flatMap_cons,
    List.flatMap_nil, List.append_nil, List.map_map]
  exact List.map_id'' (fun pos => rfl) _

/-- For a keyword occurring exactly once in the list, the filtered matches
are exactly one per occurrence position of the lower-cased keyword. -/
theorem find_keywords_filter_eq (t : Str) (l : List Str) (c kw : Str)
    (hl : l.Nodup) (hkw : kw ∈ l) :
    ((SwedishFinancialKeywords._find_keywords t l c).filter
      (fun m => m.keyword == kw)).map (·.position) =
      findOccurrences t (pyLower kw) := by
  induction l with
  | nil => cases hkw
  | cons a as ih =>
    rw [find_keywords_cons, List.filter_append, List.map_append]
    rcases List.mem_cons.mp hkw with rfl | hmem
    · have hnotin : kw ∉ as := (List.nodup_cons.mp hl).1
      rw [find_keywords_filter_not_mem t as c kw hnotin]
      rw [find_keywords_singleton]
      simp
    · have ha : a ≠ kw := fun hak => (List.nodup_cons.mp hl).1 (hak ▸ hmem)
      have h1 : (SwedishFinancialKeywords._find_keywords t [a] c).filter
          (fun m => m.keyword == kw) = [] := by
        rw [List.filter_eq_nil_iff]
        intro m hm
        rw [find_keywords_keyword t a c m hm]
        simpa using ha
      rw [h1, ih (List.nodup_cons.mp hl).2 hmem]
      simp

/-- The positive vocabulary has no duplicate phrases. -/
theorem positive_keywords_nodup :
    SwedishFinancialKeywords.POSITIVE_KEYWORDS.Nodup := by
  decide

/-- The negative vocabulary has no duplicate phrases. -/
theorem negative_keywords_nodup :
    SwedishFinancialKeywords.NEGATIVE_KEYWORDS.Nodup := by
  decide

/-- The catalyst vocabulary has no duplicate phrases. -/
theorem catalyst_keywords_nodup :
    SwedishFinancialKeywords.CATALYST_KEYWORDS.Nodup := by
  decide

/-- C4 amended: matching is case-insensitive plain substring matching with
*no* phrase-boundary requirement: for every text and every vocabulary
phrase (positive, negative and catalyst alike), `extract_keywords` returns
exactly one `KeywordMatch` in the phrase's category per occurrence
position of the lower-cased phrase in the lower-cased text — including
occurrences inside longer words, e.g. `samarbete` inside `samarbetet`
(the compiled word-boundary regexes of `_compile_patterns` are never used
by `extract_keywords`). -/
theorem C4_amended_substring_matching (text kw : Str) :
    (kw ∈ SwedishFinancialKeywords.POSITIVE_KEYWORDS →
      (((SwedishFinancialKeywords.extract_keywords text).positive.filter
        (fun m => m.keyword == kw)).map (·.position)) =
        findOccurrences (pyLower text) (pyLower kw)) ∧
    (kw ∈ SwedishFinancialKeywords.NEGATIVE_KEYWORDS →
      (((SwedishFinancialKeywords.extract_keywords text).negative.filter
        (fun m => m.keyword == kw)).map (·.position)) =
        findOccurrences (pyLower text) (pyLower kw)) ∧
    (kw ∈ SwedishFinancialKeywords.CATALYST_KEYWORDS →
      (((SwedishFinancialKeywords.extract_keywords text).catalyst.filter
        (fun m => m.keyword == kw)).map (·.position)) =
        findOccurrences (pyLower text) (pyLower kw)) := by
  by_cases hemp : text.isEmpty
  · have htext : text = [] := List.isEmpty_iff.mp hemp
    subst htext
    exact ⟨fun _ => rfl, fun _ => rfl, fun _ => rfl⟩
  · simp only [Bool.not_eq_true] at hemp
    simp only [SwedishFinancialKeywords.extract_keywords, hemp,
      Bool.false_eq_true, if_false]
    refine ⟨fun hkw => ?_, fun hkw => ?_, fun hkw => ?_⟩
    · exact find_keywords_filter_eq (pyLower text)
        SwedishFinancialKeywords.POSITIVE_KEYWORDS "positive".data kw
        positive_keywords_nodup hkw
    · exact find_keywords_filter_eq (pyLower text)
        SwedishFinancialKeywords.NEGATIVE_KEYWORDS "negative".data kw
        negative_keywords_nodup hkw
    · exact find_keywords_filter_eq (pyLower text)
        SwedishFinancialKeywords.CATALYST_KEYWORDS "catalyst".data kw
        catalyst_keywords_nodup hkw

/-- Witness for C4 amended: one phrase from each vocabulary, each matched
inside a longer word — `samarbete` in `samarbetet` (positive),
`vinstvarning` in `vinstvarningen` (negative), and `bokslut` in
`bokslutet` (catalyst). -/
theorem C4_amended_witness :
    ("samarbete".data ∈ SwedishFinancialKeywords.POSITIVE_KEYWORDS ∧
      (((SwedishFinancialKeywords.extract_keywords "samarbetet".data).positive.filter
        (fun m => m.keyword == "samarbete".data)).map (·.position)) =
        findOccurrences (pyLower "samarbetet".data) (pyLower "samarbete".data)) ∧
    ("vinstvarning".data ∈ SwedishFinancialKeywords.NEGATIVE_KEYWORDS ∧
      (((SwedishFinancialKeywords.extract_keywords "vinstvarningen".data).negative.filter
        (fun m => m.keyword == "vinstvarning".data)).map (·.position)) =
        findOccurrences (pyLower "vinstvarningen".data) (pyLower "vinstvarning".data)) ∧
    ("bokslut".data ∈ SwedishFinancialKeywords.CATALYST_KEYWORDS ∧
      (((SwedishFinancialKeywords.extract_keywords "bokslutet".data).catalyst.filter
        (fun m => m.keyword == "bokslut".data)).map (·.position)) =
        findOccurrences (pyLower "bokslutet".data) (pyLower "bokslut".data)) :=
  ⟨⟨by decide, (C4_amended_substring_matching "samarbetet".data "samarbete".data).1
      (by decide)⟩,
    ⟨by decide, (C4_amended_substring_matching "vinstvarningen".data
      "vinstvarning".data).2.1 (by decide)⟩,
    ⟨by decide, (C4_amended_substring_matching "bokslutet".data "bokslut".data).2.2
      (by decide)⟩⟩

/-! C2: score bounds.  First the per-family signal invariant. -/

theorem lookup_getD_bounds (m : List (Str × ℚ)) (k : Str) (d lo hi : ℚ)
    (hd : lo ≤ d ∧ d ≤ hi) (hm : ∀ p ∈ m, lo ≤ p.2 ∧ p.2 ≤ hi) :
    lo ≤ (List.lookup k m).getD d ∧ (List.lookup k m).getD d ≤ hi := by
  induction m with
  | nil => simpa using hd
  | cons p t ih =>
    rcases p with ⟨k', v⟩
    simp only [List.lookup]
    cases hbeq : k == k'
    · exact ih fun q hq => hm q (List.mem_cons_of_mem _ hq)
    · simpa using hm (k', v) (List.mem_cons_self _ _)

theorem pyMin_one_bounds {x : ℚ} (hx : 0 ≤ x) :
    0 ≤ pyMin 1 x ∧ pyMin 1 x ≤ 1 := by
  unfold pyMin; split_ifs with h <;> constructor <;> linarith

theorem quant_signals_ok (text : Str) :
    ∀ s ∈ AdvancedAnalyzer._analyze_quantitative text, SignalOK s := by
  intro s hs
  simp only [AdvancedAnalyzer._analyze_quantitative, List.mem_flatMap,
    List.mem_filterMap] at hs
  obtain ⟨config, hconfig, pattern, _, v, _, hsome⟩ := hs
  have hcfg : 0 < config.threshold ∧ 0 ≤ config.weight ∧ config.weight ≤ 1 := by
    simp only [AdvancedAnalyzer.quantitative_patterns] at hconfig
    fin_cases hconfig <;> norm_num
  split_ifs at hsome with hth
  · injection hsome with h
    subst h
    have hq : (0 : ℚ) ≤ (v : ℚ) / (config.threshold * 2) := by
      apply div_nonneg (by positivity)
      nlinarith [hcfg.1]
    have hb := pyMin_one_bounds hq
    refine ⟨?_, ?_, by norm_num, by norm_num⟩
    · dsimp only
      nlinarith [hcfg.2.1, hcfg.2.2, hb.1, hb.2]
    · dsimp only
      nlinarith [hcfg.2.1, hcfg.2.2, hb.1, hb.2]

theorem competitive_signals_ok (text : Str) :
    ∀ s ∈ AdvancedAnalyzer._analyze_competitive_advantage text, SignalOK s := by
  intro s hs
  simp only [AdvancedAnalyzer._analyze_competitive_advantage,
    List.mem_flatMap] at hs
  obtain ⟨p, _, hmem⟩ := hs
  split_ifs at hmem
  · rcases List.mem_singleton.mp hmem with rfl
    have hq : (0 : ℚ) ≤
        ((p.2.filter fun keyword => containsSub text keyword).length : ℚ) / 3 := by
      positivity
    have hb := pyMin_one_bounds hq
    refine ⟨?_, ?_, by norm_num, by norm_num⟩ <;> dsimp only <;>
      nlinarith [hb.1, hb.2]
  · cases hmem

theorem management_signals_ok (text : Str) :
    ∀ s ∈ AdvancedAnalyzer._analyze_management text, SignalOK s := by
  intro s hs
  simp only [AdvancedAnalyzer._analyze_management, List.mem_flatMap] at hs
  obtain ⟨p, _, hmem⟩ := hs
  split_ifs at hmem
  · rcases List.mem_singleton.mp hmem with rfl
    have hb := lookup_getD_bounds AdvancedAnalyzer.management_strength_map p.1
      0.5 0 1 (by norm_num) ?_
    · exact ⟨by dsimp only; linarith [hb.1], by simpa using hb.2,
        by norm_num, by norm_num⟩
    · intro q hq
      simp only [AdvancedAnalyzer.management_strength_map] at hq
      fin_cases hq <;> norm_num
  · cases hmem

theorem timing_signals_ok (text : Str) :
    ∀ s ∈ AdvancedAnalyzer._analyze_timing text, SignalOK s := by
  intro s hs
  simp only [AdvancedAnalyzer._analyze_timing, List.mem_flatMap] at hs
  obtain ⟨p, _, hmem⟩ := hs
  split_ifs at hmem
  · rcases List.mem_singleton.mp hmem with rfl
    have hb := lookup_getD_bounds AdvancedAnalyzer.timing_strength_map p.1
      0.5 0 1 (by norm_num) ?_
    · exact ⟨by dsimp only; linarith [hb.1], by simpa using hb.2,
        by norm_num, by norm_num⟩
    · intro q hq
      simp only [AdvancedAnalyzer.timing_strength_map] at hq
      fin_cases hq <;> norm_num
  · cases hmem

theorem tailwind_signals_ok (text : Str) :
    ∀ s ∈ AdvancedAnalyzer._analyze_tailwinds text, SignalOK s := by
  intro s hs
  simp only [AdvancedAnalyzer._analyze_tailwinds, List.mem_flatMap] at hs
  obtain ⟨p, _, hmem⟩ := hs
  split_ifs at hmem
  · rcases List.mem_singleton.mp hmem with rfl
    exact ⟨by norm_num, by norm_num, by norm_num, by norm_num⟩
  · cases hmem

theorem value_signals_ok (text : Str) :
    ∀ s ∈ AdvancedAnalyzer._analyze_value text, SignalOK s := by
  intro s hs
  simp only [AdvancedAnalyzer._analyze_value, List.mem_flatMap] at hs
  obtain ⟨p, _, hmem⟩ := hs
  split_ifs at hmem
  · rcases List.mem_singleton.mp hmem with rfl
    have hb := lookup_getD_bounds AdvancedAnalyzer.value_strength_map p.1
      0.5 0 1 (by norm_num) ?_
    · exact ⟨by dsimp only; linarith [hb.1], by simpa using hb.2,
        by norm_num, by norm_num⟩
    · intro q hq
      simp only [AdvancedAnalyzer.value_strength_map] at hq
      fin_cases hq <;> norm_num
  · cases hmem

theorem risk_signals_ok (text : Str) :
    ∀ s ∈ AdvancedAnalyzer._analyze_risks text, SignalOK s := by
  intro s hs
  simp only [AdvancedAnalyzer._analyze_risks] at hs
  split_ifs at hs
  · rcases List.mem_singleton.mp hs with rfl
    have hq : (0 : ℚ) ≤
        ((AdvancedAnalyzer.risk_keywords.filter
          fun keyword => containsSub text keyword).length : ℚ) / 3 := by
      positivity
    have hb := pyMin_one_bounds hq
    refine ⟨?_, ?_, by norm_num, by norm_num⟩ <;> dsimp only <;> linarith
  · cases hs

/-- Every signal produced by the analyzer satisfies the invariant. -/
theorem analyze_signals_ok (title content snippet : Str) :
    ∀ s ∈ AdvancedAnalyzer.analyze_advanced_signals title content snippet,
      SignalOK s := by
  intro s hs
  simp only [AdvancedAnalyzer.analyze_advanced_signals, List.mem_append] at hs
  rcases hs with ((((((h | h) | h) | h) | h) | h) | h)
  · exact quant_signals_ok _ s h
  · exact competitive_signals_ok _ s h
  · exact management_signals_ok _ s h
  · exact timing_signals_ok _ s h
  · exact tailwind_signals_ok _ s h
  · exact value_signals_ok _ s h
  · exact risk_signals_ok _ s h

/-- Bounds for `calculate_advanced_score` under the signal invariant. -/
theorem calculate_advanced_score_bounds (signals : List AdvancedSignal)
    (h : ∀ s ∈ signals, SignalOK s) :
    0 ≤ (AdvancedAnalyzer.calculate_advanced_score signals).advanced_score ∧
    (AdvancedAnalyzer.calculate_advanced_score signals).advanced_score ≤ 1 ∧
    0 ≤ (AdvancedAnalyzer.calculate_advanced_score signals).risk_adjusted_score ∧
    (AdvancedAnalyzer.calculate_advanced_score signals).risk_adjusted_score ≤ 1 ∧
    0 ≤ (AdvancedAnalyzer.calculate_advanced_score signals).confidence ∧
    (AdvancedAnalyzer.calculate_advanced_score signals).confidence ≤ 1 := by
  by_cases hemp : signals.isEmpty
  · have hnil : signals = [] := List.isEmpty_iff.mp hemp
    subst hnil
    norm_num [AdvancedAnalyzer.calculate_advanced_score]
  · simp only [Bool.not_eq_true] at hemp
    have hne : signals ≠ [] := by
      intro hn
      rw [hn] at hemp
      simp at hemp
    simp only [AdvancedAnalyzer.calculate_advanced_score, hemp,
      Bool.false_eq_true, if_false, scoreLoop_eq]
    have hnum0 : 0 ≤ ((signals.filter fun s => decide (0 ≤ s.strength)).map
        fun s => s.strength * s.confidence).sum := by
      apply List.sum_nonneg
      intro x hx
      simp only [List.mem_map] at hx
      obtain ⟨s, hsmem, rfl⟩ := hx
      have hcond := (List.mem_filter.mp hsmem).2
      have hmem := (List.mem_filter.mp hsmem).1
      have hok := h s hmem
      exact mul_nonneg (of_decide_eq_true hcond) hok.2.2.1
    have hnumden : ((signals.filter fun s => decide (0 ≤ s.strength)).map
        fun s => s.strength * s.confidence).sum ≤
        ((signals.filter fun s => decide (0 ≤ s.strength)).map
          fun s => s.confidence).sum := by
      apply List.sum_le_sum
      intro s hsmem
      have hmem := (List.mem_filter.mp hsmem).1
      have hok := h s hmem
      exact mul_le_of_le_one_left hok.2.2.1 hok.2.1
    have hrisk0 : 0 ≤ ((signals.filter fun s => decide (s.strength < 0)).map
        fun s => |s.strength| * s.confidence).sum := by
      apply List.sum_nonneg
      intro x hx
      simp only [List.mem_map] at hx
      obtain ⟨s, hsmem, rfl⟩ := hx
      have hok := h s (List.mem_filter.mp hsmem).1
      exact mul_nonneg (abs_nonneg _) hok.2.2.1
    have hA0 : (0:ℚ) ≤ (if 0 < ((signals.filter fun s => decide (0 ≤ s.strength)).map
        fun s => s.confidence).sum then
        ((signals.filter fun s => decide (0 ≤ s.strength)).map
          fun s => s.strength * s.confidence).sum /
        ((signals.filter fun s => decide (0 ≤ s.strength)).map
          fun s => s.confidence).sum else 0) := by
      split_ifs with hden
      · exact div_nonneg hnum0 (le_of_lt hden)
      · norm_num
    have hA1 : (if 0 < ((signals.filter fun s => decide (0 ≤ s.strength)).map
        fun s => s.confidence).sum then
        ((signals.filter fun s => decide (0 ≤ s.strength)).map
          fun s => s.strength * s.confidence).sum /
        ((signals.filter fun s => decide (0 ≤ s.strength)).map
          fun s => s.confidence).sum else 0) ≤ 1 := by
      split_ifs with hden
      · exact (div_le_one hden).mpr hnumden
      · norm_num
    have hlen : (0:ℚ) < (signals.length : ℚ) := by
      have := List.length_pos.mpr hne
      exact_mod_cast this
    have hconf0 : 0 ≤ (signals.map fun s => s.confidence).sum / (signals.length : ℚ) := by
      apply div_nonneg _ (le_of_lt hlen)
      apply List.sum_nonneg
      intro x hx
      simp only [List.mem_map] at hx
      obtain ⟨s, hsmem, rfl⟩ := hx
      exact (h s hsmem).2.2.1
    have hconf1 : (signals.map fun s => s.confidence).sum / (signals.length : ℚ) ≤ 1 := by
      rw [div_le_one hlen]
      have hb := List.sum_le_card_nsmul (signals.map fun s => s.confidence) 1 ?_
      · simpa [nsmul_eq_mul] using hb
      · intro x hx
        simp only [List.mem_map] at hx
        obtain ⟨s, hsmem, rfl⟩ := hx
        exact (h s hsmem).2.2.2
    refine ⟨hA0, hA1, le_pyMax_left 0 _, pyMax_le (by norm_num) (by linarith), hconf0, hconf1⟩

/-- Bounds for the keyword-level relevance score when all match scores are
non-negative. -/
theorem keywords_relevance_range (p n c : List KeywordMatch)
    (hp : ∀ m ∈ p, 0 ≤ m.score) (hn : ∀ m ∈ n, 0 ≤ m.score)
    (hc : ∀ m ∈ c, 0 ≤ m.score) :
    0 ≤ SwedishFinancialKeywords.calculate_relevance_score p n c ∧
      SwedishFinancialKeywords.calculate_relevance_score p n c ≤ 1 := by
  simp only [SwedishFinancialKeywords.calculate_relevance_score]
  split_ifs with h
  · norm_num
  · have hsum : (0:ℚ) ≤ (p.map (·.score)).sum + (n.map (·.score)).sum +
        (c.map (·.score)).sum := by
      have h1 : (0:ℚ) ≤ (p.map (·.score)).sum := by
        apply List.sum_nonneg
        intro x hx
        obtain ⟨m, hm, rfl⟩ := List.mem_map.mp hx
        exact hp m hm
      have h2 : (0:ℚ) ≤ (n.map (·.score)).sum := by
        apply List.sum_nonneg
        intro x hx
        obtain ⟨m, hm, rfl⟩ := List.mem_map.mp hx
        exact hn m hm
      have h3 : (0:ℚ) ≤ (c.map (·.score)).sum := by
        apply List.sum_nonneg
        intro x hx
        obtain ⟨m, hm, rfl⟩ := List.mem_map.mp hx
        exact hc m hm
      linarith
    constructor
    · apply le_pyMin (by norm_num)
      have havg : (0:ℚ) ≤ ((p.map (·.score)).sum + (n.map (·.score)).sum +
          (c.map (·.score)).sum) / ((p.length + n.length + c.length : ℕ) : ℚ) :=
        div_nonneg hsum (by positivity)
      have hq1 : (0:ℚ) ≤ min 0.3 (((p.length + n.length + c.length : ℕ) : ℚ) * 0.05) :=
        le_min (by norm_num) (by positivity)
      have hq2 : (0:ℚ) ≤ min 0.2 ((c.length : ℚ) * 0.1) :=
        le_min (by norm_num) (by positivity)
      linarith
    · exact pyMin_le_left _ _

/-- The values of the `signal_weights` table lie in `[0, 1]`. -/
theorem signal_weights_bounds :
    ∀ p ∈ NewsClassifier.signal_weights, 0 ≤ p.2 ∧ p.2 ≤ 1 := by
  intro p hp
  simp only [NewsClassifier.signal_weights] at hp
  fin_cases hp <;> norm_num

/-- The relevance loop keeps `0 ≤ weighted_score ≤ total_weight`. -/
theorem relevanceStep_foldl_bounds (l : List AdvancedSignal)
    (hl : ∀ s ∈ l, SignalOK s) : ∀ a b : ℚ, 0 ≤ a → a ≤ b →
    0 ≤ (l.foldl NewsClassifier.relevanceStep (a, b)).1 ∧
      (l.foldl NewsClassifier.relevanceStep (a, b)).1 ≤
        (l.foldl NewsClassifier.relevanceStep (a, b)).2 := by
  induction l with
  | nil => exact fun a b h0 hab => ⟨h0, hab⟩
  | cons s t ih =>
    intro a b h0 hab
    have hsok := hl s (List.mem_cons_self _ _)
    have htl : ∀ x ∈ t, SignalOK x := fun x hx => hl x (List.mem_cons_of_mem _ hx)
    rw [List.foldl_cons]
    by_cases hpos : s.strength > 0
    · have hw := lookup_getD_bounds NewsClassifier.signal_weights
        (AdvancedAnalyzer.sigCategory s.signal_type) 0.1 0 1 (by norm_num)
        signal_weights_bounds
      have hstep : NewsClassifier.relevanceStep (a, b) s =
          (a + s.strength *
            ((List.lookup (AdvancedAnalyzer.sigCategory s.signal_type)
              NewsClassifier.signal_weights).getD 0.1) * s.confidence,
           b + ((List.lookup (AdvancedAnalyzer.sigCategory s.signal_type)
              NewsClassifier.signal_weights).getD 0.1) * s.confidence) := by
        simp [NewsClassifier.relevanceStep, hpos]
      rw [hstep]
      apply ih htl
      · have := mul_nonneg (mul_nonneg (le_of_lt hpos) hw.1) hsok.2.2.1
        linarith
      · have hwc : 0 ≤ ((List.lookup (AdvancedAnalyzer.sigCategory s.signal_type)
            NewsClassifier.signal_weights).getD 0.1) * s.confidence :=
          mul_nonneg hw.1 hsok.2.2.1
        nlinarith [hsok.2.1]
    · have hstep : NewsClassifier.relevanceStep (a, b) s = (a, b) := by
        simp [NewsClassifier.relevanceStep, hpos]
      rw [hstep]
      exact ih htl a b h0 hab

/-- Bounds for the classifier relevance score. -/
theorem classifier_relevance_range (p n c : List KeywordMatch)
    (sigs : List AdvancedSignal)
    (hp : ∀ m ∈ p, 0 ≤ m.score) (hn : ∀ m ∈ n, 0 ≤ m.score)
    (hc : ∀ m ∈ c, 0 ≤ m.score) (hs : ∀ s ∈ sigs, SignalOK s) :
    0 ≤ NewsClassifier._calculate_relevance_score p n c sigs ∧
      NewsClassifier._calculate_relevance_score p n c sigs ≤ 1 := by
  simp only [NewsClassifier._calculate_relevance_score]
  have hkw := keywords_relevance_range p n c hp hn hc
  have hsig : 0 ≤ (if sigs.isEmpty = true then (0:ℚ) else
      if (NewsClassifier.relevanceLoop sigs).2 > 0 then
        (NewsClassifier.relevanceLoop sigs).1 /
          (NewsClassifier.relevanceLoop sigs).2 * 0.6 else 0) ∧
      (if sigs.isEmpty = true then (0:ℚ) else
      if (NewsClassifier.relevanceLoop sigs).2 > 0 then
        (NewsClassifier.relevanceLoop sigs).1 /
          (NewsClassifier.relevanceLoop sigs).2 * 0.6 else 0) ≤ 0.6 := by
    split_ifs with h1 h2
    · norm_num
    · have hloop := relevanceStep_foldl_bounds sigs hs 0 0 le_rfl le_rfl
      have hdiv0 : 0 ≤ (NewsClassifier.relevanceLoop sigs).1 /
          (NewsClassifier.relevanceLoop sigs).2 :=
        div_nonneg hloop.1 (le_of_lt h2)
      have hdiv1 : (NewsClassifier.relevanceLoop sigs).1 /
          (NewsClassifier.relevanceLoop sigs).2 ≤ 1 :=
        (div_le_one h2).mpr hloop.2
      constructor <;> nlinarith
    · norm_num
  constructor
  · apply le_pyMin (by norm_num)
    have := mul_nonneg hkw.1 (by norm_num : (0:ℚ) ≤ 0.4)
    linarith [hsig.1]
  · exact pyMin_le_left _ _

/-- C2: for every input triple, the classification returned by
`classify_news` has `relevance_score`, `advanced_score`,
`risk_adjusted_score` and `signal_confidence` in `[0, 1]`, and
`final_score ≥ 0`. -/
theorem C2_classification_score_bounds (title content snippet : Str) :
    (0 ≤ (NewsClassifier.classify_news title content snippet).relevance_score ∧
      (NewsClassifier.classify_news title content snippet).relevance_score ≤ 1) ∧
    (0 ≤ (NewsClassifier.classify_news title content snippet).advanced_score ∧
      (NewsClassifier.classify_news title content snippet).advanced_score ≤ 1) ∧
    (0 ≤ (NewsClassifier.classify_news title content snippet).risk_adjusted_score ∧
      (NewsClassifier.classify_news title content snippet).risk_adjusted_score ≤ 1) ∧
    (0 ≤ (NewsClassifier.classify_news title content snippet).signal_confidence ∧
      (NewsClassifier.classify_news title content snippet).signal_confidence ≤ 1) ∧
    0 ≤ (NewsClassifier.classify_news title content snippet).final_score := by
  simp only [NewsClassifier.classify_news, NewsClassifier.classify_news_body,
    NewsClassifier.handle_classify]
  have hsig := analyze_signals_ok title content snippet
  have hp : ∀ m ∈ SwedishFinancialKeywords.extract_positive_keywords title content
      snippet, 0 ≤ m.score := by
    intro m hm
    refine le_trans (by norm_num : (0:ℚ) ≤ 0.5) ?_
    exact (extract_score_range _ m (List.mem_append.mpr
      (Or.inl (List.mem_append.mpr (Or.inl hm))))).1
  have hn : ∀ m ∈ SwedishFinancialKeywords.extract_negative_keywords title content
      snippet, 0 ≤ m.score := by
    intro m hm
    refine le_trans (by norm_num : (0:ℚ) ≤ 0.5) ?_
    exact (extract_score_range _ m (List.mem_append.mpr
      (Or.inl (List.mem_append.mpr (Or.inr hm))))).1
  have hc : ∀ m ∈ SwedishFinancialKeywords.extract_catalyst_keywords title content
      snippet, 0 ≤ m.score := by
    intro m hm
    refine le_trans (by norm_num : (0:ℚ) ≤ 0.5) ?_
    exact (extract_score_range _ m (List.mem_append.mpr (Or.inr hm))).1
  have hrel := classifier_relevance_range _ _ _ _ hp hn hc hsig
  have hmet := calculate_advanced_score_bounds _ hsig
  refine ⟨hrel, ⟨hmet.1, hmet.2.1⟩, ⟨hmet.2.2.1, hmet.2.2.2.1⟩,
    ⟨hmet.2.2.2.2.1, hmet.2.2.2.2.2⟩, ?_⟩
  exact le_pyMax_left 0 _

/-! C3: sentiment monotonicity. -/

/-- C3 counterexample: the positive phrase `omvänd vinstvarning` already
occurs in the snippet; appending one more occurrence of it *decreases*
`sentiment_score` (from 0.3 to 0.1): text growth moves the embedded negative
match `vinstvarning` into the first 30% of the text (+0.2 bonus), while the
appended occurrence contributes a positive 0.6 and a new negative 0.6. -/
theorem C3_counterexample_sentiment_decreases :
    "omvänd vinstvarning".data ∈ SwedishFinancialKeywords.POSITIVE_KEYWORDS ∧
      sentiment_of [] [] ("omvänd vinstvarning".data ++ "omvänd vinstvarning".data) <
        sentiment_of [] [] "omvänd vinstvarning".data := by
  constructor
  · decide
  · with_unfolding_all decide

theorem isPrefixOf_append_right {k s : Str} (v : Str)
    (h : k.isPrefixOf s = true) : k.isPrefixOf (s ++ v) = true := by
  induction k generalizing s with
  | nil => simp [List.isPrefixOf]
  | cons a as ih =>
    cases s with
    | nil => simp [List.isPrefixOf] at h
    | cons b bs =>
      simp only [List.cons_append, List.isPrefixOf, Bool.and_eq_true] at h ⊢
      exact ⟨h.1, ih h.2⟩

theorem filter_sublist_mono (l : List ℕ) (p q : ℕ → Bool)
    (h : ∀ a, p a = true → q a = true) : List.Sublist (l.filter p) (l.filter q) := by
  induction l with
  | nil => exact List.Sublist.refl _
  | cons a t ih =>
    by_cases hpa : p a = true
    · rw [List.filter_cons_of_pos hpa, List.filter_cons_of_pos (h a hpa)]
      exact List.Sublist.cons₂ a ih
    · rw [List.filter_cons_of_neg (by simpa using hpa)]
      by_cases hqa : q a = true
      · rw [List.filter_cons_of_pos hqa]
        exact List.Sublist.cons a ih
      · rw [List.filter_cons_of_neg (by simpa using hqa)]
        exact ih

/-- Occurrence positions in a text are a sublist of the occurrence positions
in any extension of the text. -/
theorem findOccurrences_sublist (s v k : Str) :
    List.Sublist (findOccurrences s k) (findOccurrences (s ++ v) k) := by
  unfold findOccurrences
  have h1 : List.Sublist
      ((List.range s.length).filter (fun i => k.isPrefixOf (s.drop i)))
      ((List.range s.length).filter (fun i => k.isPrefixOf ((s ++ v).drop i))) := by
    apply filter_sublist_mono
    intro i hi
    by_cases hle : i ≤ s.length
    · rw [List.drop_append_of_le_length hle]
      exact isPrefixOf_append_right v hi
    · have hnil : s.drop i = [] := List.drop_eq_nil_of_le (le_of_not_le hle)
      rw [hnil] at hi
      cases k with
      | nil => simp [List.isPrefixOf]
      | cons a as => simp [List.isPrefixOf] at hi
  have h2 : List.Sublist
      ((List.range s.length).filter (fun i => k.isPrefixOf ((s ++ v).drop i)))
      ((List.range (s ++ v).length).filter
        (fun i => k.isPrefixOf ((s ++ v).drop i))) := by
    apply List.Sublist.filter
    rw [List.length_append]
    exact List.range_sublist.mpr (Nat.le_add_right _ _)
  exact h1.trans h2

/-- The per-match keyword score is monotone in the text length. -/
theorem keyword_score_mono_length (k : Str) (p : Nat) {L L' : Nat} (h : L ≤ L') :
    SwedishFinancialKeywords._calculate_keyword_score k p L ≤
      SwedishFinancialKeywords._calculate_keyword_score k p L' := by
  rw [keyword_score_eq, keyword_score_eq]
  apply pyMin_mono_right
  have hcast : (L : ℚ) ≤ (L' : ℚ) := by exact_mod_cast h
  have h01 : (L : ℚ) * 0.1 ≤ (L' : ℚ) * 0.1 := by linarith
  have h03 : (L : ℚ) * 0.3 ≤ (L' : ℚ) * 0.3 := by linarith
  have hb : (if (p : ℚ) < (L : ℚ) * 0.1 then (0.3:ℚ)
      else if (p : ℚ) < (L : ℚ) * 0.3 then 0.2 else 0) ≤
      (if (p : ℚ) < (L' : ℚ) * 0.1 then (0.3:ℚ)
      else if (p : ℚ) < (L' : ℚ) * 0.3 then 0.2 else 0) := by
    split_ifs <;> linarith
  linarith

theorem sublist_sum_le {l₁ l₂ : List ℚ} (h : List.Sublist l₁ l₂)
    (h0 : ∀ x ∈ l₂, 0 ≤ x) : l₁.sum ≤ l₂.sum := by
  induction h with
  | slnil => simp
  | cons a hsub ih =>
    simp only [List.sum_cons]
    have hrest := ih fun x hx => h0 x (List.mem_cons_of_mem _ hx)
    have ha := h0 a (List.mem_cons_self _ _)
    linarith
  | cons₂ a hsub ih =>
    simp only [List.sum_cons]
    have hrest := ih fun x hx => h0 x (List.mem_cons_of_mem _ hx)
    linarith

/-- Extending the text can only grow the total score of one keyword. -/
theorem per_keyword_sum_mono (tl v k : Str) :
    ((findOccurrences tl (pyLower k)).map
      (fun i => SwedishFinancialKeywords._calculate_keyword_score k i tl.length)).sum ≤
    ((findOccurrences (tl ++ v) (pyLower k)).map
      (fun i => SwedishFinancialKeywords._calculate_keyword_score k i
        (tl ++ v).length)).sum := by
  have hlen : tl.length ≤ (tl ++ v).length := by
    rw [List.length_append]
    exact Nat.le_add_right _ _
  have step1 : ((findOccurrences tl (pyLower k)).map
      (fun i => SwedishFinancialKeywords._calculate_keyword_score k i tl.length)).sum ≤
      ((findOccurrences tl (pyLower k)).map
        (fun i => SwedishFinancialKeywords._calculate_keyword_score k i
          (tl ++ v).length)).sum := by
    apply List.sum_le_sum
    intro i _
    exact keyword_score_mono_length k i hlen
  have step2 : ((findOccurrences tl (pyLower k)).map
      (fun i => SwedishFinancialKeywords._calculate_keyword_score k i
        (tl ++ v).length)).sum ≤
      ((findOccurrences (tl ++ v) (pyLower k)).map
        (fun i => SwedishFinancialKeywords._calculate_keyword_score k i
          (tl ++ v).length)).sum := by
    apply sublist_sum_le (List.Sublist.map _ (findOccurrences_sublist tl v (pyLower k)))
    intro x hx
    obtain ⟨i, _, rfl⟩ := List.mem_map.mp hx
    exact le_trans (by norm_num) (keyword_score_range k i (tl ++ v).length).1
  exact le_trans step1 step2

/-- The total score of `_find_keywords` splits as a per-keyword sum of
occurrence scores. -/
theorem find_keywords_score_sum (tl : Str) (l : List Str) (c : Str) :
    ((SwedishFinancialKeywords._find_keywords tl l c).map (·.score)).sum =
      (l.map (fun k => ((findOccurrences tl (pyLower k)).map
        (fun i => SwedishFinancialKeywords._calculate_keyword_score k i
          tl.length)).sum)).sum := by
  induction l with
  | nil => rfl
  | cons a as ih =>
    rw [find_keywords_cons, List.map_append, List.sum_append, ih, List.map_cons,
      List.sum_cons]
    congr 1
    simp only [SwedishFinancialKeywords._find_keywords, List.flatMap_cons,
      List.flatMap_nil, List.append_nil, List.map_map]
    rfl

theorem exists_dropWhile_suffix (x : Str) :
    ∃ q, x = q ++ x.dropWhile isPySpace := by
  induction x with
  | nil => exact ⟨[], rfl⟩
  | cons a t ih =>
    by_cases h : isPySpace a = true
    · obtain ⟨q, hq⟩ := ih
      refine ⟨a :: q, ?_⟩
      rw [List.dropWhile_cons_of_pos h, List.cons_append, ← hq]
    · exact ⟨[], by rw [List.dropWhile_cons_of_neg (by simpa using h), List.nil_append]⟩

theorem exists_pyStripRight (l : Str) : ∃ r, l = pyStripRight l ++ r := by
  obtain ⟨q, hq⟩ := exists_dropWhile_suffix l.reverse
  refine ⟨q.reverse, ?_⟩
  unfold pyStripRight
  calc l = l.reverse.reverse := (List.reverse_reverse l).symm
    _ = (q ++ l.reverse.dropWhile isPySpace).reverse := by rw [← hq]
    _ = (l.reverse.dropWhile isPySpace).reverse ++ q.reverse := by
        rw [List.reverse_append]

theorem pyStripRight_append_ex (a w : Str) :
    ∃ v, pyStripRight (a ++ w) = pyStripRight a ++ v := by
  by_cases hw : (w.reverse.dropWhile isPySpace).isEmpty
  · have h1 : w.reverse.dropWhile isPySpace = [] := List.isEmpty_iff.mp hw
    refine ⟨[], ?_⟩
    unfold pyStripRight
    rw [List.reverse_append, List.dropWhile_append, h1]
    simp
  · have hw' : (w.reverse.dropWhile isPySpace).isEmpty = false :=
      Bool.eq_false_iff.mpr (fun h => hw (by rw [h]))
    have h2 : (a ++ w).reverse.dropWhile isPySpace =
        w.reverse.dropWhile isPySpace ++ a.reverse := by
      rw [List.reverse_append, List.dropWhile_append, hw']
      simp
    obtain ⟨r, hr⟩ := exists_pyStripRight a
    refine ⟨r ++ (w.reverse.dropWhile isPySpace).reverse, ?_⟩
    show ((a ++ w).reverse.dropWhile isPySpace).reverse = _
    rw [h2, List.reverse_append, List.reverse_reverse]
    calc a ++ (w.reverse.dropWhile isPySpace).reverse
        = (pyStripRight a ++ r) ++ (w.reverse.dropWhile isPySpace).reverse := by
          rw [← hr]
      _ = pyStripRight a ++ (r ++ (w.reverse.dropWhile isPySpace).reverse) := by
          rw [List.append_assoc]

/-- `strip` of an extended string extends `strip` of the string. -/
theorem pyStrip_append_ex (u w : Str) :
    ∃ v, pyStrip (u ++ w) = pyStrip u ++ v := by
  by_cases hu : (u.dropWhile isPySpace).isEmpty
  · have h1 : u.dropWhile isPySpace = [] := List.isEmpty_iff.mp hu
    refine ⟨pyStrip (u ++ w), ?_⟩
    show pyStrip (u ++ w) = pyStripRight (pyStripLeft u) ++ pyStrip (u ++ w)
    unfold pyStripLeft
    rw [h1]
    rfl
  · have hu' : (u.dropWhile isPySpace).isEmpty = false :=
      Bool.eq_false_iff.mpr (fun h => hu (by rw [h]))
    have h2 : (u ++ w).dropWhile isPySpace = u.dropWhile isPySpace ++ w := by
      rw [List.dropWhile_append, hu']
      simp
    obtain ⟨v, hv⟩ := pyStripRight_append_ex (u.dropWhile isPySpace) w
    refine ⟨v, ?_⟩
    show pyStripRight (pyStripLeft (u ++ w)) = pyStripRight (pyStripLeft u) ++ v
    unfold pyStripLeft
    rw [h2]
    exact hv

/-- Extending the analyzed text never decreases the total positive score. -/
theorem extract_positive_sum_mono (t v : Str) :
    ((SwedishFinancialKeywords.extract_keywords t).positive.map (·.score)).sum ≤
      ((SwedishFinancialKeywords.extract_keywords (t ++ v)).positive.map
        (·.score)).sum := by
  have hnonneg : ∀ (x : Str), 0 ≤ ((SwedishFinancialKeywords.extract_keywords
      x).positive.map (·.score)).sum := by
    intro x
    apply List.sum_nonneg
    intro y hy
    obtain ⟨m, hm, rfl⟩ := List.mem_map.mp hy
    exact le_trans (by norm_num) (extract_score_range x m (List.mem_append.mpr
      (Or.inl (List.mem_append.mpr (Or.inl hm))))).1
  by_cases ht : t.isEmpty
  · have htnil : t = [] := List.isEmpty_iff.mp ht
    subst htnil
    have : ((SwedishFinancialKeywords.extract_keywords ([] : Str)).positive.map
        (·.score)).sum = 0 := rfl
    rw [this]
    exact hnonneg _
  · simp only [Bool.not_eq_true] at ht
    have htv : (t ++ v).isEmpty = false := by
      cases t with
      | nil => simp at ht
      | cons a t' => rfl
    simp only [SwedishFinancialKeywords.extract_keywords, ht, htv,
      Bool.false_eq_true, if_false]
    have hlow : pyLower (t ++ v) = pyLower t ++ pyLower v := List.map_append _ _ _
    rw [hlow, find_keywords_score_sum, find_keywords_score_sum]
    apply List.sum_le_sum
    intro k _
    exact per_keyword_sum_mono (pyLower t) (pyLower v) k

/-- C3 amended: appending one more occurrence of an existing positive
keyword to the snippet never decreases the *total positive keyword score*
(the sum of the positive matches' scores); `sentiment_score` itself can
decrease, because text growth raises the position bonus of existing negative
matches and a positive phrase may contain a negative phrase as a substring
(see the counterexample). -/
theorem C3_amended_positive_sum_monotone (title content snippet w : Str)
    (hw : w ∈ SwedishFinancialKeywords.POSITIVE_KEYWORDS) :
    positive_score_sum title content snippet ≤
      positive_score_sum title content (snippet ++ w) := by
  unfold positive_score_sum SwedishFinancialKeywords.extract_positive_keywords
  have hassoc : SwedishFinancialKeywords.full_text title content (snippet ++ w) =
      pyStrip ((title ++ [' '] ++ content ++ [' '] ++ snippet) ++ w) := by
    simp [SwedishFinancialKeywords.full_text, List.append_assoc]
  obtain ⟨v, hv⟩ :=
    pyStrip_append_ex (title ++ [' '] ++ content ++ [' '] ++ snippet) w
  rw [hassoc, hv]
  exact extract_positive_sum_mono _ v

/-- Witness for C3 amended: appending a second `samarbete` to the snippet
`samarbete`. -/
theorem C3_amended_witness :
    "samarbete".data ∈ SwedishFinancialKeywords.POSITIVE_KEYWORDS ∧
      positive_score_sum "x".data [] "samarbete".data ≤
        positive_score_sum "x".data [] ("samarbete".data ++ "samarbete".data) :=
  ⟨by decide, C3_amended_positive_sum_monotone "x".data [] "samarbete".data
    "samarbete".data (by decide)⟩
